import Mathlib

set_option maxRecDepth 2000

/-!
Shallow embedding of the CSV-to-geofeature derivation pipeline of
csv-map-layer-visualizer (src/components/geoColumns.js, timeline.js,
featureTypes.js, csvParse.js, deriveRegions.js and the point deriver).

Modelling conventions:
* JS numbers are modelled as `ℚ` (the inputs are decimal strings, so every
  parsed value is rational); `NaN` results are modelled as `none`.
  `Number.isFinite` guards therefore collapse to `Option.isSome`.
* CSV row values are always strings (csvParse.js trims every cell into a
  string), so the `typeof value === "number"` / `instanceof Date` branches of
  the coercion helpers are unreachable and are not modelled.
* The environment-defined date parser (`new Date(s)` and `Date.UTC`) is a
  parameter `pd : DateParser`; a parsed date is abstracted to the two
  observations the code makes of it: `getUTCFullYear` and the UTC day-of-year
  computed by tryParseDayOfYear.  Theorems quantify over every `pd`.
* JS objects used as string-keyed maps (rows, the `groups`/`parts` Maps) are
  insertion-ordered association lists, matching JS key/insertion order.
-/

/-- ASCII whitespace as matched by the `\s`-based regexes and `trim` calls in
the source (the data in scope is ASCII). -/
def jsWhitespaceB (c : Char) : Bool :=
  c = ' ' || c = '\t' || c = '\n' || c = '\r' || c = '\x0b' || c = '\x0c'

def trimCharsL (cs : List Char) : List Char :=
  ((cs.dropWhile jsWhitespaceB).reverse.dropWhile jsWhitespaceB).reverse

/-- Models `String.prototype.trim`. -/
def jsTrim (s : String) : String := String.mk (trimCharsL s.data)

def toLowerChar (c : Char) : Char :=
  if 'A' ≤ c && c ≤ 'Z' then Char.ofNat (c.toNat + 32) else c

/-- Models `String.prototype.toLowerCase` (ASCII range). -/
def jsToLower (s : String) : String := String.mk (s.data.map toLowerChar)

/-- Models `.replace(/\s+/g, "")`. -/
def stripWsL (cs : List Char) : List Char := cs.filter (fun c => !jsWhitespaceB c)

/-- Models `.replace(/[_-]+/g, "")`. -/
def stripUnderscoreHyphenL (cs : List Char) : List Char :=
  cs.filter (fun c => !(c = '_' || c = '-'))

/-- Models `.replace(/\d+$/g, "")`: drop the trailing run of digits. -/
def stripTrailingDigitsL (cs : List Char) : List Char :=
  (cs.reverse.dropWhile Char.isDigit).reverse

/-- Models `.replace(/_\d+$/g, "")`: drop one trailing underscore-plus-digits
suffix, if present. -/
def stripTrailingUnderscoreDigitsL (cs : List Char) : List Char :=
  let rev := cs.reverse
  let ds := rev.takeWhile Char.isDigit
  if ds.isEmpty then cs
  else
    match rev.drop ds.length with
    | '_' :: rest => rest.reverse
    | _ => cs

/-- Models `String.prototype.includes` (substring containment). -/
def containsSubstring (s pat : String) : Bool :=
  s.data.tails.any (fun t => pat.data.isPrefixOf t)

def digitsToNat (ds : List Char) : Nat :=
  ds.foldl (fun n c => n * 10 + (c.toNat - 48)) 0

def spanDigits (cs : List Char) : List Char × List Char :=
  (cs.takeWhile Char.isDigit, cs.dropWhile Char.isDigit)

/-- Reads an optional leading sign, returning the sign factor and the rest. -/
def readSign : List Char → Int × List Char
  | '+' :: t => (1, t)
  | '-' :: t => (-1, t)
  | cs => (1, cs)

/-- Exponent part after the `e`/`E` of a float literal: optional sign and
digits; if no digits follow, the exponent is ignored (parseFloat "1e" = 1). -/
def parseExpVal (cs : List Char) : Int :=
  let (sg, cs1) := readSign cs
  let (ds, _) := spanDigits cs1
  if ds.isEmpty then 0 else sg * (digitsToNat ds : Int)

/-- Powers of ten as rationals, via Nat power (kernel-friendly). -/
def pow10Q (n : Nat) : ℚ := ((10 ^ n : Nat) : ℚ)

def pow10ZQ : Int → ℚ
  | Int.ofNat n => pow10Q n
  | Int.negSucc n => 1 / pow10Q (n + 1)

/-- Models `Number.parseFloat` composed with the `Number.isFinite` guard used
at every call site: leading whitespace skipped, optional sign, `Infinity` and
unparseable prefixes rejected (`none` models the NaN/Infinity outcomes),
otherwise the longest valid decimal prefix with optional fraction and
exponent. -/
def parseFloatQ (s : String) : Option ℚ :=
  let cs := s.data.dropWhile jsWhitespaceB
  let (sgn, cs1) := readSign cs
  if ("Infinity".data.isPrefixOf cs1) then none
  else
    let (ip, cs2) := spanDigits cs1
    let (fp, cs3) :=
      match cs2 with
      | '.' :: t => spanDigits t
      | _ => ([], cs2)
    if ip.isEmpty && fp.isEmpty then none
    else
      let mant : ℚ := (digitsToNat ip : ℚ) + (digitsToNat fp : ℚ) / pow10Q fp.length
      let e : Int :=
        match cs3 with
        | 'e' :: t => parseExpVal t
        | 'E' :: t => parseExpVal t
        | _ => 0
      some ((sgn : ℚ) * mant * pow10ZQ e)

/-- A CSV row: a JS object keyed by header names (keys unique, insertion
ordered). -/
abbrev Row := List (String × String)

/-- Property access `row[key]`: `none` models `undefined`. -/
def rowGet (r : Row) (k : String) : Option String :=
  (r.find? (fun p => p.1 == k)).map (fun p => p.2)

namespace GeoColumns

def LAT_SYNONYMS : List String := ["lat", "latitude", "y", "northing"]

def LON_SYNONYMS : List String := ["lon", "lng", "long", "longitude", "x", "easting"]

/-- geoColumns.js normalizeKey: trim, lowercase, strip whitespace, strip one
trailing `_<digits>` suffix.  (Interior underscores and hyphens are kept.) -/
def normalizeKey (h : String) : String :=
  String.mk (stripTrailingUnderscoreDigitsL (stripWsL (jsToLower (jsTrim h)).data))

def scoreHeader (normalized : String) (synonyms : List String) : Nat :=
  if synonyms.any (fun s => normalized == s) then 100
  else if synonyms.any (fun s => containsSubstring normalized s) then 50
  else 0

end GeoColumns

/-- The scanning loop shared by both pickBest implementations: keep the first
header whose score strictly exceeds the best so far. -/
def pickBestGo (sc : String → Nat) : List String → Option String × Nat → Option String × Nat
  | [], best => best
  | h :: t, best => pickBestGo sc t (if sc h > best.2 then (some h, sc h) else best)

namespace GeoColumns

def pickBest (headers : List String) (synonyms : List String) : Option String :=
  (pickBestGo (fun h => scoreHeader (normalizeKey h) synonyms) headers (none, 0)).1

structure LatLonFields where
  latField : Option String
  lonField : Option String
deriving DecidableEq

def autoDetectLatLon (headers : List String) : LatLonFields :=
  if headers.isEmpty then ⟨none, none⟩
  else ⟨pickBest headers LAT_SYNONYMS, pickBest headers LON_SYNONYMS⟩

/-- geoColumns.js parseFlexibleFloat on a (possibly missing) string cell:
null/undefined and blank inputs give NaN (`none`); otherwise whitespace is
removed, a decimal comma becomes a dot, and the result is parsed as a float
with non-finite results rejected. -/
def parseFlexibleFloat (value : Option String) : Option ℚ :=
  match value with
  | none => none
  | some v =>
    let s := jsTrim v
    if s = "" then none
    else parseFloatQ (String.mk ((stripWsL s.data).map (fun c => if c = ',' then '.' else c)))

/-- isValidLat on the parsed value (`none` = NaN, rejected by Number.isFinite). -/
def isValidLat (lat : Option ℚ) : Bool :=
  match lat with
  | some q => decide (-90 ≤ q ∧ q ≤ 90)
  | none => false

def isValidLon (lon : Option ℚ) : Bool :=
  match lon with
  | some q => decide (-180 ≤ q ∧ q ≤ 180)
  | none => false

end GeoColumns

namespace TimelineMod

def YEAR_SYNONYMS : List String := ["year", "yyyy", "yr", "ar", "år"]
def DATE_SYNONYMS : List String := ["date", "datetime", "timestamp", "time", "created", "createdat"]
def DOY_SYNONYMS : List String := ["dayofyear", "doy", "yearday"]

/-- timeline.js normalizeKey: trim, lowercase, strip whitespace, strip all
underscores/hyphens, strip a trailing run of digits. -/
def normalizeKey (h : String) : String :=
  String.mk (stripTrailingDigitsL (stripUnderscoreHyphenL (stripWsL (jsToLower (jsTrim h)).data)))

def scoreHeader (normalized : String) (synonyms : List String) : Nat :=
  if synonyms.any (fun s => normalized == s) then 100
  else if synonyms.any (fun s => containsSubstring normalized s) then 50
  else 0

def pickBest (headers : List String) (synonyms : List String) : Option String :=
  (pickBestGo (fun h => scoreHeader (normalizeKey h) synonyms) headers (none, 0)).1

structure TimelineFields where
  yearField : Option String
  dateField : Option String
  dayOfYearField : Option String
deriving DecidableEq

structure RangeFields where
  yearFromField : Option String
  yearToField : Option String
  dateFromField : Option String
  dateToField : Option String
deriving DecidableEq

def autoDetectTimelineFields (headers : List String) : TimelineFields :=
  if headers.isEmpty then ⟨none, none, none⟩
  else ⟨pickBest headers YEAR_SYNONYMS, pickBest headers DATE_SYNONYMS, pickBest headers DOY_SYNONYMS⟩

def findExactKey (headers : List String) (normalizedKey : String) : Option String :=
  headers.find? (fun h => normalizeKey h == normalizedKey)

def autoDetectRangeFields (headers : List String) : RangeFields :=
  if headers.isEmpty then ⟨none, none, none, none⟩
  else
    ⟨findExactKey headers "yearfrom", findExactKey headers "yearto",
     findExactKey headers "datefrom", findExactKey headers "dateto"⟩

/-- The abstraction of an environment `Date` object: the code only observes
`getUTCFullYear()` and the UTC day-of-year value
`Math.floor((Date.UTC(y,m,d) - Date.UTC(y,0,1)) / 86400000) + 1`. -/
structure JsDate where
  year : Int
  doy : Int
deriving DecidableEq

/-- The environment-defined date recognizer (`new Date(s)` with the explicit
`YYYY-MM-DD` UTC fallback of parseDateValue folded in); `none` models an
Invalid Date on both paths. -/
def DateParser := String → Option JsDate

/-- parseDateValue on a (possibly missing) string cell: the Date-instance and
numeric-epoch branches are unreachable for CSV rows; a blank string is
rejected before the environment parser runs. -/
def parseDateValue (pd : DateParser) (v : Option String) : Option JsDate :=
  match v with
  | none => none
  | some s =>
    let t := jsTrim s
    if t = "" then none else pd t

/-- isReasonableYear: wide historical bound. -/
def isReasonableYear (y : Int) : Bool := decide (-2000 ≤ y ∧ y ≤ 3000)

/-- First match of the regex `-?\d{3,4}` (leftmost position, greedy up to four
digits), already range-checked by isReasonableYear as in the source. -/
def findYearMatch : List Char → Option Int
  | [] => none
  | c :: rest =>
    if c = '-' then
      let ds := rest.takeWhile Char.isDigit
      if 3 ≤ ds.length then
        let y : Int := -(digitsToNat (ds.take 4) : Int)
        if isReasonableYear y then some y else none
      else findYearMatch rest
    else if c.isDigit then
      let ds := (c :: rest).takeWhile Char.isDigit
      if 3 ≤ ds.length then
        let y : Int := (digitsToNat (ds.take 4) : Int)
        if isReasonableYear y then some y else none
      else findYearMatch rest
    else findYearMatch rest

/-- parseYearValue on a (possibly missing) string cell (the numeric branch is
unreachable for CSV rows). -/
def parseYearValue (v : Option String) : Option Int :=
  match v with
  | none => none
  | some s =>
    let t := jsTrim s
    if t = "" then none else findYearMatch t.data

/-- parseIntSafe: `Number.parseInt(String(v ?? "").trim(), 10)` with the
Number.isFinite guard; optional sign then leading digits. -/
def parseIntSafe (v : Option String) : Option Int :=
  let cs := (jsTrim ((v).getD "")).data
  let (sgn, cs1) := readSign cs
  let (ds, _) := spanDigits cs1
  if ds.isEmpty then none else some (sgn * (digitsToNat ds : Int))

/-- tryGetYear: the year column if it parses, else the year of the parsed
date column. -/
def tryGetYear (pd : DateParser) (row : Row) (fields : TimelineFields) : Option Int :=
  let fromYearColumn :=
    match fields.yearField with
    | some yf => parseYearValue (rowGet row yf)
    | none => none
  match fromYearColumn with
  | some y => some y
  | none =>
    match fields.dateField with
    | some df => (parseDateValue pd (rowGet row df)).map JsDate.year
    | none => none

/-- tryParseDayOfYear: when an explicit day-of-year column was detected it is
used exclusively (out-of-range or unparseable values give `none` with no date
fallback); otherwise the day-of-year of the parsed date column, accepted only
in [1,365]. -/
def tryParseDayOfYear (pd : DateParser) (row : Row) (fields : TimelineFields) : Option Int :=
  match fields.dayOfYearField with
  | some f =>
    match parseIntSafe (rowGet row f) with
    | some n => if 1 ≤ n ∧ n ≤ 365 then some n else none
    | none => none
  | none =>
    match fields.dateField with
    | some df =>
      match parseDateValue pd (rowGet row df) with
      | some d => if 1 ≤ d.doy ∧ d.doy ≤ 365 then some d.doy else none
      | none => none
    | none => none

end TimelineMod

namespace FeatureTypes

/-- featureTypes.js normalizeKey: trim, lowercase, strip whitespace, strip all
underscores/hyphens (no trailing-digit stripping here). -/
def normalizeKey (h : String) : String :=
  String.mk (stripUnderscoreHyphenL (stripWsL (jsToLower (jsTrim h)).data))

def detectFeatureTypeField (headers : List String) : Option String :=
  headers.find? (fun h => normalizeKey h == "featuretype")

/-- getRowFeatureType: the trimmed, lowercased cell of the feature-type
column; `none` when the column is absent or the cell blank. -/
def getRowFeatureType (row : Row) (featureTypeField : Option String) : Option String :=
  match featureTypeField with
  | none => none
  | some f =>
    let value := jsTrim ((rowGet row f).getD "")
    if value = "" then none else some (jsToLower value)

end FeatureTypes

open TimelineMod FeatureTypes GeoColumns

/-- The timeline/day-filter configuration object driven by the UI. -/
structure Timeline where
  timelineEnabled : Bool
  dayFilterEnabled : Bool
  yearMin : Option Int
  yearMax : Option Int
  startYear : Option Int
  endYear : Option Int
  startDay : Option Int
  endDay : Option Int
deriving DecidableEq

/-- getRangeYear (duplicated verbatim in the point deriver and
deriveRegions.js): a range side resolves through its year column first, then
through its date column. -/
def getRangeYear (pd : DateParser) (row : Row) (yearField dateField : Option String) : Option Int :=
  let fromYearColumn :=
    match yearField with
    | some yf => parseYearValue (rowGet row yf)
    | none => none
  match fromYearColumn with
  | some y => some y
  | none =>
    match dateField with
    | some df => (parseDateValue pd (rowGet row df)).map JsDate.year
    | none => none

/-- isPointVisibleForTimeline (point deriver): interval-overlap semantics when
either range side resolves, otherwise point-in-time year plus the optional
day-of-year sub-filter. -/
def isPointVisibleForTimeline (pd : DateParser) (row : Row)
    (timelineFields : TimelineFields) (rangeFields : RangeFields)
    (startYear endYear : Option Int) (startDay endDay : Int)
    (dayEnabled : Bool) : Bool :=
  let yearFrom := getRangeYear pd row rangeFields.yearFromField rangeFields.dateFromField
  let yearTo := getRangeYear pd row rangeFields.yearToField rangeFields.dateToField
  let hasRange := yearFrom.isSome || yearTo.isSome
  if hasRange then
    match yearFrom <|> yearTo, yearTo <|> yearFrom with
    | some fy, some ty =>
      let rangeStart := min fy ty
      let rangeEnd := max fy ty
      if (match endYear with | some e => decide (e < rangeStart) | none => false) then false
      else if (match startYear with | some s => decide (rangeEnd < s) | none => false) then false
      else true
    | _, _ => false
  else
    match tryGetYear pd row timelineFields with
    | none => false
    | some year =>
      if (match startYear with | some s => decide (year < s) | none => false) then false
      else if (match endYear with | some e => decide (e < year) | none => false) then false
      else if dayEnabled then
        match tryParseDayOfYear pd row timelineFields with
        | none => false
        | some doy =>
          let inRange : Bool :=
            if startDay ≤ endDay then decide (startDay ≤ doy ∧ doy ≤ endDay)
            else decide (startDay ≤ doy ∨ doy ≤ endDay)
          inRange
      else true

/-- isRowVisibleForTimeline (deriveRegions.js): a verbatim duplicate of
isPointVisibleForTimeline. -/
def isRowVisibleForTimeline (pd : DateParser) (row : Row)
    (timelineFields : TimelineFields) (rangeFields : RangeFields)
    (startYear endYear : Option Int) (startDay endDay : Int)
    (dayEnabled : Bool) : Bool :=
  let yearFrom := getRangeYear pd row rangeFields.yearFromField rangeFields.dateFromField
  let yearTo := getRangeYear pd row rangeFields.yearToField rangeFields.dateToField
  let hasRange := yearFrom.isSome || yearTo.isSome
  if hasRange then
    match yearFrom <|> yearTo, yearTo <|> yearFrom with
    | some fy, some ty =>
      let rangeStart := min fy ty
      let rangeEnd := max fy ty
      if (match endYear with | some e => decide (e < rangeStart) | none => false) then false
      else if (match startYear with | some s => decide (rangeEnd < s) | none => false) then false
      else true
    | _, _ => false
  else
    match tryGetYear pd row timelineFields with
    | none => false
    | some year =>
      if (match startYear with | some s => decide (year < s) | none => false) then false
      else if (match endYear with | some e => decide (e < year) | none => false) then false
      else if dayEnabled then
        match tryParseDayOfYear pd row timelineFields with
        | none => false
        | some doy =>
          let inRange : Bool :=
            if startDay ≤ endDay then decide (startDay ≤ doy ∧ doy ≤ endDay)
            else decide (startDay ≤ doy ∨ doy ≤ endDay)
          inRange
      else true

/-- A derived map point, keyed by the row index of one derivation pass. -/
structure PointFeature where
  id : String
  lat : ℚ
  lon : ℚ
  row : Row
deriving DecidableEq

/-- The argument object of derivePointsFromCsv. -/
structure PointArgs where
  rows : List Row
  latField : Option String
  lonField : Option String
  timeline : Option Timeline
  timelineFields : TimelineFields
  rangeFields : RangeFields
  featureTypeField : Option String

structure PointsResult where
  points : List PointFeature
  skipped : Nat
  skippedByTimeline : Nat
  reason : Option String
deriving DecidableEq

/-- The per-row loop of derivePointsFromCsv, indexed from `i`. -/
def derivePointsLoop (pd : DateParser) (latField lonField : String)
    (timelineEnabled dayEnabled : Bool) (startYear endYear : Option Int)
    (startDay endDay : Int) (timelineFields : TimelineFields)
    (rangeFields : RangeFields) (featureTypeField : Option String) :
    Nat → List Row → List PointFeature × Nat × Nat
  | _, [] => ([], 0, 0)
  | i, r :: rest =>
    let res :=
      derivePointsLoop pd latField lonField timelineEnabled dayEnabled startYear endYear
        startDay endDay timelineFields rangeFields featureTypeField (i + 1) rest
    let featureType := getRowFeatureType r featureTypeField
    if featureType.isSome && featureType != some "point" then res
    else
      let lat := parseFlexibleFloat (rowGet r latField)
      let lon := parseFlexibleFloat (rowGet r lonField)
      if !(isValidLat lat && isValidLon lon) then (res.1, res.2.1 + 1, res.2.2)
      else if timelineEnabled &&
          !(isPointVisibleForTimeline pd r timelineFields rangeFields startYear endYear
              startDay endDay dayEnabled) then
        (res.1, res.2.1, res.2.2 + 1)
      else
        ({ id := toString i, lat := lat.getD 0, lon := lon.getD 0, row := r } :: res.1, res.2.1, res.2.2)

/-- derivePointsFromCsv: derives point features from CSV rows using the chosen
lat/lon fields (the `Array.isArray(rows)` guard is vacuous in the model, where
`rows` is always a list). -/
def derivePointsFromCsv (pd : DateParser) (args : PointArgs) : PointsResult :=
  match args.latField, args.lonField with
  | some latField, some lonField =>
    let timelineEnabled := (args.timeline.map Timeline.timelineEnabled).getD false
    let dayEnabled := (args.timeline.map Timeline.dayFilterEnabled).getD false
    let yearMin := args.timeline.bind Timeline.yearMin
    let yearMax := args.timeline.bind Timeline.yearMax
    let startYear := (args.timeline.bind Timeline.startYear) <|> yearMin
    let endYear := (args.timeline.bind Timeline.endYear) <|> yearMax
    let startDay := (args.timeline.bind Timeline.startDay).getD 1
    let endDay := (args.timeline.bind Timeline.endDay).getD 365
    let res :=
      derivePointsLoop pd latField lonField timelineEnabled dayEnabled startYear endYear
        startDay endDay args.timelineFields args.rangeFields args.featureTypeField 0 args.rows
    { points := res.1, skipped := res.2.1, skippedByTimeline := res.2.2,
      reason := none }
  | _, _ =>
    { points := [], skipped := 0, skippedByTimeline := 0,
      reason := some "Missing rows or lat/lon mapping." }

namespace CsvParse

/-- One tokenizer (PapaParse) error record, as consumed by parseCsvFile. -/
structure PapaError where
  message : String
  row : Option Nat
deriving DecidableEq

/-- The tokenizer: PapaParse is an external dependency, so its output (the
cell matrix and its error records) is an input of the embedding. -/
def Papa := String → List (List String) × List PapaError

structure ParseResult where
  headers : List String
  rows : List Row
  previewRows : List Row
  totalRows : Nat
  parseErrors : List String
deriving DecidableEq

def MAX_PREVIEW_ROWS : Nat := 25

def MAX_ERRORS : Nat := 200

/-- pushErr: append a message only while the cap is not reached. -/
def pushErr (list : List String) (msg : String) : List String :=
  if list.length < MAX_ERRORS then list ++ [msg] else list

/-- The pre-parse cleanup: split on line terminators, trim each line, drop
blank lines, rejoin with a single newline.  (Splitting at every `\r` and `\n`
makes a `\r\n` pair contribute one extra blank segment, which the blank-line
filter removes, so this equals splitting on the `/\r\n|\n|\r/` alternation.) -/
def cleanText (text : String) : String :=
  let lines := (text.data.splitOnP (fun c => c = '\n' || c = '\r')).map
    (fun l => jsTrim (String.mk l))
  String.intercalate "\n" (lines.filter (fun l => l != ""))

/-- firstNonEmptyArrayRow: the first row with at least one cell that trims to
a non-empty string (every tokenizer row is an array in the model). -/
def rowHasContent (row : List String) : Bool :=
  row.any (fun v => jsTrim v != "")

/-- normalizeHeaders: trim names, drop empty names, disambiguate duplicates by
suffixing `_2`, `_3`, ... in order of appearance. -/
def normalizeHeadersGo : List String → List (String × Nat) → List String
  | [], _ => []
  | h :: t, seen =>
    let base := jsTrim h
    if base = "" then normalizeHeadersGo t seen
    else
      let count := ((seen.find? (fun p => p.1 == base)).map (fun p => p.2)).getD 0 + 1
      let seen1 := if (seen.any (fun p => p.1 == base)) then
          seen.map (fun p => if p.1 == base then (base, count) else p)
        else seen ++ [(base, count)]
      (if count = 1 then base else base ++ "_" ++ toString count) :: normalizeHeadersGo t seen1

def normalizeHeaders (raw : List String) : List String :=
  normalizeHeadersGo raw []

/-- The body loop of parseCsvFile: skip blank rows, pad/truncate every kept
row to the header width, and record a capped warning for over-long rows.  (The
`Array.isArray(rowArr)` skip branch is unrepresentable in the model, so the
`skipped` counter of the source stays 0.)  Returns the produced rows and the
warning list. -/
def processBody (headers : List String) (headerIndex : Nat) :
    Nat → List (List String) → List String → List Row × List String
  | _, [], errs => ([], errs)
  | i, rowArr :: rest, errs =>
    if rowArr.all (fun v => jsTrim v == "") then
      processBody headers headerIndex (i + 1) rest errs
    else
      let normalizedValues := (List.range headers.length).map
        (fun c => jsTrim ((rowArr.getD c "")))
      let errs1 :=
        if headers.length < rowArr.length then
          pushErr errs ("Line " ++ toString (headerIndex + 2 + i) ++ ": had " ++
            toString rowArr.length ++ " values; truncated to " ++
            toString headers.length ++ ".")
        else errs
      let obj : Row := headers.zip normalizedValues
      let res := processBody headers headerIndex (i + 1) rest errs1
      (obj :: res.1, res.2)

/-- parseCsvFile on the file's text (reading the File object is the async
boundary outside the model) and a tokenizer `papa`. -/
def parseCsvFile (papa : Papa) (text : String) : ParseResult :=
  let cleaned := cleanText text
  if cleaned = "" then
    { headers := [], rows := [], previewRows := [], totalRows := 0,
      parseErrors := ["File is empty (or only blank lines)."] }
  else
    let result := papa cleaned
    let parseErrors := (result.2.take MAX_ERRORS).map
      (fun e => "Parser: " ++ e.message ++ " (row " ++
        (match e.row with | some n => toString n | none => "?") ++ ")")
    let data := result.1
    if data.isEmpty then
      { headers := [], rows := [], previewRows := [], totalRows := 0,
        parseErrors := parseErrors ++ ["No rows detected."] }
    else
      match data.find? rowHasContent with
      | none =>
        { headers := [], rows := [], previewRows := [], totalRows := 0,
          parseErrors := parseErrors ++ ["No header row detected."] }
      | some headerRow =>
        let rawHeaders := headerRow.map (fun h => jsTrim h)
        let headers := normalizeHeaders rawHeaders
        if headers.isEmpty then
          { headers := [], rows := [], previewRows := [], totalRows := 0,
            parseErrors := parseErrors ++ ["Header row is empty."] }
        else
          let headerIndex := (data.findIdx rowHasContent)
          let body := data.drop (headerIndex + 1)
          let res := processBody headers headerIndex 0 body parseErrors
          let errs2 := if res.1.isEmpty then pushErr res.2 "No usable data rows were parsed." else res.2
          { headers := headers, rows := res.1, previewRows := res.1.take MAX_PREVIEW_ROWS,
            totalRows := res.1.length, parseErrors := errs2 }

end CsvParse

namespace Regions

def DEFAULT_STYLE_color : String := "#3388ff"
def DEFAULT_STYLE_weight : ℚ := 2
def DEFAULT_STYLE_opacity : ℚ := 1
def DEFAULT_STYLE_fillColor : String := "#3388ff"
def DEFAULT_STYLE_fillOpacity : ℚ := 1 / 4

/-- The resolved per-part style object (numeric fields as ℚ; 0.25 = 1/4). -/
structure ResolvedStyle where
  color : String
  weight : ℚ
  opacity : ℚ
  fillColor : String
  fillOpacity : ℚ
deriving DecidableEq

/-- One vertex row collected into a part group. -/
structure VertexItem where
  row : Row
  lat : ℚ
  lon : ℚ
  orderValue : Option ℚ
  index : Nat
deriving DecidableEq

/-- A featureId group: its parts Map (insertion-ordered), the first part key
seen, and the popup row. -/
structure RegionGroup where
  parts : List (String × List VertexItem)
  firstPartKey : String
  popupRow : Option Row
deriving DecidableEq

structure Polygon where
  id : String
  featureId : String
  part : String
  coordinates : List (ℚ × ℚ)
  row : Option Row
  style : ResolvedStyle
deriving DecidableEq

structure RegionsResult where
  polygons : List Polygon
  skipped : Nat
  skippedByTimeline : Nat
  reason : Option String
deriving DecidableEq

/-- The argument object of deriveRegionsFromCsv. -/
structure RegionArgs where
  rows : List Row
  latField : Option String
  lonField : Option String
  timeline : Option Timeline
  timelineFields : TimelineFields
  rangeFields : RangeFields
  featureTypeField : Option String

/-- JS `Map.get` on an insertion-ordered association list. -/
def assocGet (m : List (String × α)) (k : String) : Option α :=
  (m.find? (fun p => p.1 == k)).map (fun p => p.2)

/-- JS `Map.set`: update in place when the key exists, else append. -/
def assocSet (m : List (String × α)) (k : String) (v : α) : List (String × α) :=
  if m.any (fun p => p.1 == k) then
    m.map (fun p => if p.1 == k then (k, v) else p)
  else m ++ [(k, v)]

/-- parseOrderValue: parseFloat of the trimmed `order` cell, `null` when not
finite. -/
def parseOrderValue (value : Option String) : Option ℚ :=
  parseFloatQ (jsTrim (value.getD ""))

/-- getOrderKey: the explicit order value, else the original row index. -/
def getOrderKey (item : VertexItem) : ℚ :=
  item.orderValue.getD (item.index : ℚ)

/-- Stable insertion into a key-sorted list: a new item goes after all items
with an equal key, matching the stable JS `sort((a, b) => key(a) - key(b))`. -/
def insertByOrderKey (x : VertexItem) : List VertexItem → List VertexItem
  | [] => [x]
  | y :: t => if getOrderKey x < getOrderKey y then x :: y :: t else y :: insertByOrderKey x t

/-- The stable sort used on each part's rows. -/
def sortByOrderKey (items : List VertexItem) : List VertexItem :=
  items.foldl (fun acc x => insertByOrderKey x acc) []

/-- isRingClosed: an empty list counts as closed; otherwise the first and last
coordinates must be identical componentwise. -/
def isRingClosed (coords : List (ℚ × ℚ)) : Bool :=
  match coords.head?, coords.getLast? with
  | some first, some last => first.1 == last.1 && first.2 == last.2
  | _, _ => true

/-- The `coordinates.push(coordinates[0])` step guarded by isRingClosed. -/
def closeRing (coords : List (ℚ × ℚ)) : List (ℚ × ℚ) :=
  if isRingClosed coords then coords else coords ++ coords.take 1

/-- The accumulating style object: fields start absent and are only ever set
to non-null, non-empty values, so the `target[key] != null && target[key] !== ""`
guard of applyFirstNonEmpty is exactly `isSome`. -/
structure StyleAcc where
  color : Option String
  weight : Option ℚ
  opacity : Option ℚ
  fillColor : Option String
  fillOpacity : Option ℚ
deriving DecidableEq

/-- applyFirstNonEmpty for the string-valued style keys (no parser). -/
def applyStr (cur : Option String) (value : Option String) : Option String :=
  match cur with
  | some _ => cur
  | none =>
    let raw := jsTrim (value.getD "")
    if raw = "" then none else some raw

/-- applyFirstNonEmpty for the float-valued style keys (parser = parseNumber;
an unparseable value leaves the field unset so the scan continues). -/
def applyNum (cur : Option ℚ) (value : Option String) : Option ℚ :=
  match cur with
  | some _ => cur
  | none =>
    let raw := jsTrim (value.getD "")
    if raw = "" then none else parseFloatQ raw

/-- One iteration of the resolveStyle scan over a part row. -/
def styleStep (acc : StyleAcc) (r : Row) : StyleAcc :=
  { color := applyStr acc.color (rowGet r "color")
    weight := applyNum acc.weight (rowGet r "weight")
    opacity := applyNum acc.opacity (rowGet r "opacity")
    fillColor := applyStr acc.fillColor (rowGet r "fillColor")
    fillOpacity := applyNum acc.fillOpacity (rowGet r "fillOpacity") }

def emptyStyleAcc : StyleAcc := ⟨none, none, none, none, none⟩

/-- resolveStyle: first non-empty (and, for numeric keys, parseable) value per
style key over the sorted part rows, library defaults, then the color/fillColor
cross-fill (the truthiness tests on the resolved colors are the non-empty
string tests). -/
def resolveStyle (items : List VertexItem) : ResolvedStyle :=
  let acc := items.foldl (fun a it => styleStep a it.row) emptyStyleAcc
  let hasColor := acc.color.isSome
  let hasFillColor := acc.fillColor.isSome
  let resolved : ResolvedStyle :=
    { color := acc.color.getD DEFAULT_STYLE_color
      weight := acc.weight.getD DEFAULT_STYLE_weight
      opacity := acc.opacity.getD DEFAULT_STYLE_opacity
      fillColor := acc.fillColor.getD DEFAULT_STYLE_fillColor
      fillOpacity := acc.fillOpacity.getD DEFAULT_STYLE_fillOpacity }
  let resolved1 :=
    if !hasFillColor && resolved.color != "" then { resolved with fillColor := resolved.color }
    else resolved
  let resolved2 :=
    if !hasColor && resolved1.fillColor != "" then { resolved1 with color := resolved1.fillColor }
    else resolved1
  resolved2

/-- The grouping pass of deriveRegionsFromCsv: region-typed, timeline-visible
rows with a non-blank `featureId` and valid coordinates are appended to their
featureId/part group; the counters record timeline- and validity-skips. -/
def regionsPass1 (pd : DateParser) (latField lonField : String)
    (timelineEnabled dayEnabled : Bool) (startYear endYear : Option Int)
    (startDay endDay : Int) (timelineFields : TimelineFields)
    (rangeFields : RangeFields) (featureTypeField : Option String) :
    Nat → List Row → List (String × RegionGroup) → Nat → Nat →
    List (String × RegionGroup) × Nat × Nat
  | _, [], groups, skipped, skippedByTimeline => (groups, skipped, skippedByTimeline)
  | i, row :: rest, groups, skipped, skippedByTimeline =>
    let next := regionsPass1 pd latField lonField timelineEnabled dayEnabled startYear endYear
      startDay endDay timelineFields rangeFields featureTypeField (i + 1) rest
    let featureType := getRowFeatureType row featureTypeField
    if featureType != some "region" then next groups skipped skippedByTimeline
    else if timelineEnabled &&
        !(isRowVisibleForTimeline pd row timelineFields rangeFields startYear endYear
            startDay endDay dayEnabled) then
      next groups skipped (skippedByTimeline + 1)
    else
      let featureId := jsTrim ((rowGet row "featureId").getD "")
      if featureId = "" then next groups (skipped + 1) skippedByTimeline
      else
        let partRaw := jsTrim ((rowGet row "part").getD "")
        let part := if partRaw = "" then "0" else partRaw
        let lat := parseFlexibleFloat (rowGet row latField)
        let lon := parseFlexibleFloat (rowGet row lonField)
        if !(isValidLat lat && isValidLon lon) then next groups (skipped + 1) skippedByTimeline
        else
          let orderValue := parseOrderValue (rowGet row "order")
          let groups1 :=
            if (assocGet groups featureId).isNone then
              assocSet groups featureId
                { parts := [], firstPartKey := part, popupRow := none }
            else groups
          let group := (assocGet groups1 featureId).getD
            { parts := [], firstPartKey := part, popupRow := none }
          let group1 :=
            if (assocGet group.parts part).isNone then
              { group with parts := assocSet group.parts part [] }
            else group
          let group2 :=
            if group1.popupRow.isNone && group1.firstPartKey == part then
              { group1 with popupRow := some row }
            else group1
          let items := (assocGet group2.parts part).getD []
          let item : VertexItem :=
            { row := row, lat := lat.getD 0, lon := lon.getD 0,
              orderValue := orderValue, index := i }
          let group3 := { group2 with parts := assocSet group2.parts part (items ++ [item]) }
          next (assocSet groups1 featureId group3) skipped skippedByTimeline

/-- The polygon-emission pass over one group's parts (in insertion order). -/
def emitParts (featureId : String) (popupRow : Option Row) :
    List (String × List VertexItem) → List Polygon
  | [] => []
  | (part, partRows) :: rest =>
    let sorted := sortByOrderKey partRows
    if sorted.length < 3 then emitParts featureId popupRow rest
    else
      let coordinates := sorted.map (fun r => (r.lat, r.lon))
      if coordinates.length < 3 then emitParts featureId popupRow rest
      else
        let closed := closeRing coordinates
        let style := resolveStyle sorted
        { id := featureId ++ ":" ++ part, featureId := featureId, part := part,
          coordinates := closed,
          row := popupRow <|> (sorted.head?.map VertexItem.row),
          style := style } :: emitParts featureId popupRow rest

def emitGroups : List (String × RegionGroup) → List Polygon
  | [] => []
  | (featureId, group) :: rest =>
    emitParts featureId group.popupRow group.parts ++ emitGroups rest

/-- deriveRegionsFromCsv: region polygons grouped by featureId and part.  With
no feature-type column the result is empty with a null reason; with no lat/lon
mapping it is empty with an explanatory reason string. -/
def deriveRegionsFromCsv (pd : DateParser) (args : RegionArgs) : RegionsResult :=
  match args.latField, args.lonField with
  | some latField, some lonField =>
    match args.featureTypeField with
    | none => { polygons := [], skipped := 0, skippedByTimeline := 0, reason := none }
    | some _ =>
      let timelineEnabled := (args.timeline.map Timeline.timelineEnabled).getD false
      let dayEnabled := (args.timeline.map Timeline.dayFilterEnabled).getD false
      let yearMin := args.timeline.bind Timeline.yearMin
      let yearMax := args.timeline.bind Timeline.yearMax
      let startYear := (args.timeline.bind Timeline.startYear) <|> yearMin
      let endYear := (args.timeline.bind Timeline.endYear) <|> yearMax
      let startDay := (args.timeline.bind Timeline.startDay).getD 1
      let endDay := (args.timeline.bind Timeline.endDay).getD 365
      let res :=
        regionsPass1 pd latField lonField timelineEnabled dayEnabled startYear endYear
          startDay endDay args.timelineFields args.rangeFields args.featureTypeField
          0 args.rows [] 0 0
      { polygons := emitGroups res.1, skipped := res.2.1,
        skippedByTimeline := res.2.2, reason := none }
  | _, _ =>
    { polygons := [], skipped := 0, skippedByTimeline := 0,
      reason := some "Missing rows or lat/lon mapping." }

end Regions

/-! Spec-side definitions: these follow the wording of the specification and
its claims, for comparison against the source-derived definitions above. -/

/-- The spec's interval-overlap test: the window [startYear, endYear] (each
bound optional) intersects [a, b]; it fails only if endYear < a or
startYear > b. -/
def windowOverlaps (startYear endYear : Option Int) (a b : Int) : Bool :=
  (match endYear with | some e => decide (a ≤ e) | none => true) &&
  (match startYear with | some s => decide (s ≤ b) | none => true)

/-- The spec's point-in-time year test against the optional window bounds. -/
def yearInWindow (startYear endYear : Option Int) (year : Int) : Bool :=
  (match startYear with | some s => decide (s ≤ year) | none => true) &&
  (match endYear with | some e => decide (year ≤ e) | none => true)

/-- The spec's day-of-year test with wraparound: an ordinary closed interval
when startDay ≤ endDay, and the wrapped union otherwise. -/
def dayInWrapWindow (startDay endDay doy : Int) : Bool :=
  if startDay ≤ endDay then decide (startDay ≤ doy ∧ doy ≤ endDay)
  else decide (startDay ≤ doy ∨ doy ≤ endDay)

/-- The claim's characterization of an unresolvable day-of-year: no explicit
day-of-year cell parsing into [1,365] and no parseable date cell. -/
def dayUnresolvableSpec (pd : DateParser) (row : Row) (fields : TimelineMod.TimelineFields) : Bool :=
  (match fields.dayOfYearField with
   | some f =>
     match parseIntSafe (rowGet row f) with
     | some n => decide (¬(1 ≤ n ∧ n ≤ 365))
     | none => true
   | none => true) &&
  (match fields.dateField with
   | some f => (TimelineMod.parseDateValue pd (rowGet row f)).isNone
   | none => true)

/-- The claim's single normalization for header-role detection: trim,
lowercase, strip whitespace AND all underscores/hyphens, then strip a trailing
digit-run disambiguation suffix. -/
def specNormalizeKey (h : String) : String :=
  String.mk (stripTrailingDigitsL (stripUnderscoreHyphenL (stripWsL (jsToLower (jsTrim h)).data)))

/-- The spec's selection rule for header detection: the header with the
strictly highest positive score, first encountered winning ties; none when no
header scores positively. -/
def specPick (sc : String → Nat) (headers : List String) : Option String :=
  let m := (headers.map sc).foldr max 0
  if m = 0 then none else headers.find? (fun h => sc h == m)

namespace Regions

/-- Spec-side: the first non-empty (trimmed) value of a string style key over
the part rows in order. -/
def firstNonEmptyStr (items : List VertexItem) (key : String) : Option String :=
  (items.filterMap (fun it =>
    let raw := jsTrim ((rowGet it.row key).getD "")
    if raw = "" then none else some raw)).head?

/-- Spec-side: the first non-empty value of a numeric style key that parses as
a finite float, invalid numeric text being skipped. -/
def firstValidNum (items : List VertexItem) (key : String) : Option ℚ :=
  (items.filterMap (fun it =>
    let raw := jsTrim ((rowGet it.row key).getD "")
    if raw = "" then none else parseFloatQ raw)).head?

/-- Spec-side style resolution: first non-empty value per key with library
defaults, and the color/fillColor cross-fill (a lone explicit color of either
kind supplies the other; with neither, both take their defaults). -/
def resolveStyleSpec (items : List VertexItem) : ResolvedStyle :=
  let c := firstNonEmptyStr items "color"
  let f := firstNonEmptyStr items "fillColor"
  { color := c.getD (f.getD DEFAULT_STYLE_color)
    weight := (firstValidNum items "weight").getD DEFAULT_STYLE_weight
    opacity := (firstValidNum items "opacity").getD DEFAULT_STYLE_opacity
    fillColor := f.getD (c.getD DEFAULT_STYLE_fillColor)
    fillOpacity := (firstValidNum items "fillOpacity").getD DEFAULT_STYLE_fillOpacity }

/-- A row is a candidate region vertex that the claim expects to be counted as
skipped: region-typed, surviving the timeline gate, and then either lacking a
non-blank exact-case `featureId` cell or failing coordinate validation. -/
def regionSkipPred (pd : DateParser) (latField lonField : String)
    (timelineEnabled dayEnabled : Bool) (startYear endYear : Option Int)
    (startDay endDay : Int) (timelineFields : TimelineMod.TimelineFields)
    (rangeFields : TimelineMod.RangeFields) (featureTypeField : Option String)
    (row : Row) : Bool :=
  (FeatureTypes.getRowFeatureType row featureTypeField == some "region") &&
  !(timelineEnabled &&
      !(isRowVisibleForTimeline pd row timelineFields rangeFields startYear endYear
          startDay endDay dayEnabled)) &&
  (jsTrim ((rowGet row "featureId").getD "") == "" ||
    (jsTrim ((rowGet row "featureId").getD "") != "" &&
      !(GeoColumns.isValidLat (GeoColumns.parseFlexibleFloat (rowGet row latField)) &&
        GeoColumns.isValidLon (GeoColumns.parseFlexibleFloat (rowGet row lonField)))))

end Regions

/-- A row is a point candidate (feature type absent, blank, or "point"). -/
def pointCandidate (featureTypeField : Option String) (row : Row) : Bool :=
  !((FeatureTypes.getRowFeatureType row featureTypeField).isSome &&
    FeatureTypes.getRowFeatureType row featureTypeField != some "point")

/-- A row fails coordinate validation for the chosen fields. -/
def pointInvalidCoords (latField lonField : String) (row : Row) : Bool :=
  !(GeoColumns.isValidLat (GeoColumns.parseFlexibleFloat (rowGet row latField)) &&
    GeoColumns.isValidLon (GeoColumns.parseFlexibleFloat (rowGet row lonField)))

/-! Helper lemmas. -/

namespace Regions

theorem isRingClosed_closeRing (coords : List (ℚ × ℚ)) :
    isRingClosed (closeRing coords) = true := by
  unfold closeRing
  by_cases h : isRingClosed coords = true
  · simp [h]
  · simp only [h, Bool.false_eq_true, if_false]
    cases coords with
    | nil => simp [isRingClosed] at h
    | cons a t =>
      have hgl : (a :: (t ++ [a])).getLast? = some a := by
        rw [← List.cons_append, List.getLast?_concat]
      simp [isRingClosed, hgl]

theorem emitParts_ringClosed (featureId : String) (popupRow : Option Row)
    (parts : List (String × List VertexItem)) :
    ∀ poly ∈ emitParts featureId popupRow parts, isRingClosed poly.coordinates = true := by
  induction parts with
  | nil => intro poly hp; simp [emitParts] at hp
  | cons p rest ih =>
    intro poly hp
    obtain ⟨part, partRows⟩ := p
    unfold emitParts at hp
    by_cases h1 : (sortByOrderKey partRows).length < 3
    · simp only [h1, if_true] at hp
      exact ih poly hp
    · simp only [h1, if_false] at hp
      by_cases h2 : ((sortByOrderKey partRows).map (fun r => (r.lat, r.lon))).length < 3
      · simp only [h2, if_true] at hp
        exact ih poly hp
      · simp only [h2, if_false, List.mem_cons] at hp
        rcases hp with h | h
        · subst h; exact isRingClosed_closeRing _
        · exact ih poly h

theorem emitGroups_ringClosed (groups : List (String × RegionGroup)) :
    ∀ poly ∈ emitGroups groups, isRingClosed poly.coordinates = true := by
  induction groups with
  | nil => intro poly hp; simp [emitGroups] at hp
  | cons g rest ih =>
    intro poly hp
    obtain ⟨featureId, group⟩ := g
    unfold emitGroups at hp
    rcases List.mem_append.mp hp with h | h
    · exact emitParts_ringClosed featureId group.popupRow group.parts poly h
    · exact ih poly h

end Regions

/-! Claim theorems. -/

open Regions in
/-- C8: for every assembled polygon part with at least 3 vertices, ring
closure is a no-op on an already-closed vertex sequence (first = last) and
otherwise appends exactly one copy of the first coordinate; consequently every
polygon emitted by deriveRegionsFromCsv carries a closed ring. -/
theorem c8_ring_closure :
    (∀ coords : List (ℚ × ℚ), 3 ≤ coords.length →
      (isRingClosed coords = true ↔ coords.head? = coords.getLast?) ∧
      (isRingClosed coords = true → closeRing coords = coords) ∧
      (isRingClosed coords = false →
        ∃ first, coords.head? = some first ∧ closeRing coords = coords ++ [first] ∧
          (closeRing coords).length = coords.length + 1)) ∧
    (∀ (pd : DateParser) (args : RegionArgs),
      ∀ poly ∈ (deriveRegionsFromCsv pd args).polygons, isRingClosed poly.coordinates = true) := by
  constructor
  · intro coords hlen
    match coords with
    | [] => simp at hlen
    | a :: t =>
      have hlast : ∃ l, (a :: t).getLast? = some l := by
        rw [← Option.isSome_iff_exists, List.getLast?_isSome]
        simp
      obtain ⟨l, hl⟩ := hlast
      have hclosed : isRingClosed (a :: t) = true ↔ a = l := by
        simp [isRingClosed, hl, Prod.ext_iff]
      refine ⟨?_, ?_, ?_⟩
      · rw [hclosed, hl]
        simp [eq_comm]
      · intro h
        simp [closeRing, h]
      · intro h
        refine ⟨a, rfl, ?_, ?_⟩
        · simp [closeRing, h]
        · simp [closeRing, h]
  · intro pd args poly hp
    unfold deriveRegionsFromCsv at hp
    match hlat : args.latField, hlon : args.lonField with
    | some latField, some lonField =>
      simp only [hlat, hlon] at hp
      match hft : args.featureTypeField with
      | none => simp [hft] at hp
      | some f =>
        simp only [hft] at hp
        exact Regions.emitGroups_ringClosed _ poly hp
    | some latField, none => simp [hlat, hlon] at hp
    | none, _ => simp [hlat] at hp

/-- C8 witness: an open 3-vertex ring gains exactly its one closing vertex. -/
theorem c8_ring_closure_witness :
    Regions.closeRing [((0 : ℚ), (0 : ℚ)), (1, 0), (0, 1)] = [(0, 0), (1, 0), (0, 1), (0, 0)] := by
  obtain ⟨first, hfirst, happ, _⟩ :=
    (c8_ring_closure.1 [((0 : ℚ), (0 : ℚ)), (1, 0), (0, 1)] (by decide)).2.2 (by decide)
  have : first = ((0 : ℚ), (0 : ℚ)) := by
    simpa using hfirst.symm
  rw [happ, this]
  rfl

open Regions in
/-- C7 (amended): a missing lat/lon mapping degrades both derivers to an empty
result with the explanatory reason string; a missing feature-type column makes
region derivation yield no polygons, but with a null reason rather than a
reason string; no configuration gap fails. -/
theorem c7_configuration_gaps :
    (∀ (pd : DateParser) (args : RegionArgs), args.latField = none ∨ args.lonField = none →
      deriveRegionsFromCsv pd args =
        { polygons := [], skipped := 0, skippedByTimeline := 0,
          reason := some "Missing rows or lat/lon mapping." }) ∧
    (∀ (pd : DateParser) (args : PointArgs), args.latField = none ∨ args.lonField = none →
      derivePointsFromCsv pd args =
        { points := [], skipped := 0, skippedByTimeline := 0,
          reason := some "Missing rows or lat/lon mapping." }) ∧
    (∀ (pd : DateParser) (args : RegionArgs), args.featureTypeField = none →
      (deriveRegionsFromCsv pd args).polygons = []) ∧
    (∀ (pd : DateParser) (args : RegionArgs) (lf lg : String),
      args.latField = some lf → args.lonField = some lg → args.featureTypeField = none →
      deriveRegionsFromCsv pd args =
        { polygons := [], skipped := 0, skippedByTimeline := 0, reason := none }) := by
  refine ⟨?_, ?_, ?_, ?_⟩
  · intro pd args h
    unfold deriveRegionsFromCsv
    match hlat : args.latField, hlon : args.lonField with
    | some lf, some lg => rw [hlat, hlon] at h; rcases h with h | h <;> exact absurd h (by simp)
    | some lf, none => rfl
    | none, _ => rfl
  · intro pd args h
    unfold derivePointsFromCsv
    match hlat : args.latField, hlon : args.lonField with
    | some lf, some lg => rw [hlat, hlon] at h; rcases h with h | h <;> exact absurd h (by simp)
    | some lf, none => rfl
    | none, _ => rfl
  · intro pd args h
    unfold deriveRegionsFromCsv
    match hlat : args.latField, hlon : args.lonField with
    | some lf, some lg => rw [h]
    | some lf, none => rfl
    | none, _ => rfl
  · intro pd args lf lg hlat hlon h
    unfold deriveRegionsFromCsv
    rw [hlat, hlon, h]

/-- C7 counterexample: with valid lat/lon mapping but no detected feature-type
column, region derivation over a region-shaped row degrades to no polygons
with a null reason: no explanatory reason string accompanies this gap, which
the claim as stated requires. -/
theorem c7_counterexample :
    (Regions.deriveRegionsFromCsv (fun _ => none)
      { rows := [[("featureType", "region"), ("featureId", "A"), ("lat", "1"), ("lon", "2")]],
        latField := some "lat", lonField := some "lon", timeline := none,
        timelineFields := ⟨none, none, none⟩, rangeFields := ⟨none, none, none, none⟩,
        featureTypeField := none }).polygons = [] ∧
    (Regions.deriveRegionsFromCsv (fun _ => none)
      { rows := [[("featureType", "region"), ("featureId", "A"), ("lat", "1"), ("lon", "2")]],
        latField := some "lat", lonField := some "lon", timeline := none,
        timelineFields := ⟨none, none, none⟩, rangeFields := ⟨none, none, none, none⟩,
        featureTypeField := none }).reason = none := by
  exact ⟨rfl, rfl⟩

/-- C7 witness: the amended theorem instantiated at a concrete gap of each
kind. -/
theorem c7_configuration_gaps_witness :
    Regions.deriveRegionsFromCsv (fun _ => none)
      { rows := [], latField := none, lonField := some "lon", timeline := none,
        timelineFields := ⟨none, none, none⟩, rangeFields := ⟨none, none, none, none⟩,
        featureTypeField := some "featureType" } =
      { polygons := [], skipped := 0, skippedByTimeline := 0,
        reason := some "Missing rows or lat/lon mapping." } := by
  exact c7_configuration_gaps.1 (fun _ => none) _ (Or.inl rfl)

/-! pickBest characterization. -/

theorem pickBestGo_spec (sc : String → Nat) :
    ∀ (l : List String) (b : Option String) (bs : Nat),
      pickBestGo sc l (b, bs) =
        if (l.map sc).foldr max 0 ≤ bs then (b, bs)
        else (l.find? (fun h => sc h == (l.map sc).foldr max 0), (l.map sc).foldr max 0) := by
  intro l
  induction l with
  | nil => intro b bs; simp [pickBestGo]
  | cons h t ih =>
    intro b bs
    simp only [pickBestGo, List.map_cons, List.foldr_cons]
    by_cases hgt : bs < sc h
    · rw [if_pos hgt, ih]
      by_cases hM : (t.map sc).foldr max 0 ≤ sc h
      · rw [if_pos hM]
        have hmax : max (sc h) ((t.map sc).foldr max 0) = sc h := Nat.max_eq_left hM
        rw [hmax, if_neg (by omega)]
        simp [List.find?]
      · have hle : sc h ≤ (t.map sc).foldr max 0 := Nat.le_of_not_le hM
        rw [if_neg hM]
        have hmax : max (sc h) ((t.map sc).foldr max 0) = (t.map sc).foldr max 0 :=
          Nat.max_eq_right hle
        rw [hmax, if_neg (by omega)]
        have hne : (sc h == (t.map sc).foldr max 0) = false := by
          simp only [beq_eq_false_iff_ne, ne_eq]
          omega
        simp [List.find?, hne]
    · rw [if_neg hgt, ih]
      have hhb : sc h ≤ bs := Nat.le_of_not_lt hgt
      by_cases hM : (t.map sc).foldr max 0 ≤ bs
      · rw [if_pos hM]
        have hmaxle : max (sc h) ((t.map sc).foldr max 0) ≤ bs := by
          exact Nat.max_le.mpr ⟨hhb, hM⟩
        rw [if_pos hmaxle]
      · rw [if_neg hM]
        have hle : sc h ≤ (t.map sc).foldr max 0 := by omega
        have hmax : max (sc h) ((t.map sc).foldr max 0) = (t.map sc).foldr max 0 :=
          Nat.max_eq_right hle
        rw [hmax, if_neg (by omega)]
        have hne : (sc h == (t.map sc).foldr max 0) = false := by
          simp only [beq_eq_false_iff_ne, ne_eq]
          omega
        simp [List.find?, hne]

theorem pickBest_as_specPick (sc : String → Nat) (headers : List String) :
    (pickBestGo sc headers (none, 0)).1 = specPick sc headers := by
  rw [pickBestGo_spec]
  unfold specPick
  by_cases h0 : (headers.map sc).foldr max 0 = 0
  · rw [h0]
    simp
  · rw [if_neg (by omega), if_neg h0]

/-- C6 (amended): both role detectors pick the header with the strictly
highest positive score (first encountered on ties, none when every score is
zero), but over two different normalizations: the coordinate detector strips
whitespace and one trailing underscore+digits suffix only, keeping interior
underscores and hyphens, while the point-in-time detector also strips all
underscores/hyphens and any trailing digit run. -/
theorem c6_header_detection :
    (∀ headers synonyms, GeoColumns.pickBest headers synonyms =
      specPick (fun h => GeoColumns.scoreHeader (GeoColumns.normalizeKey h) synonyms) headers) ∧
    (∀ headers synonyms, TimelineMod.pickBest headers synonyms =
      specPick (fun h => TimelineMod.scoreHeader (TimelineMod.normalizeKey h) synonyms) headers) ∧
    GeoColumns.normalizeKey "  Latitude_2 " = "latitude" ∧
    GeoColumns.normalizeKey "l_at" = "l_at" ∧
    TimelineMod.normalizeKey " Day-of_Year2 " = "dayofyear" := by
  refine ⟨?_, ?_, by decide, by decide, by decide⟩
  · intro headers synonyms
    exact pickBest_as_specPick _ headers
  · intro headers synonyms
    exact pickBest_as_specPick _ headers

/-- C6 counterexample: the header "l_at" scores zero under the code's
coordinate normalization (interior underscores are kept), so lat/lon detection
returns no latitude field; under the claim's normalization (underscores
stripped) the same header normalizes to "lat", an exact synonym match with the
highest score, which the claim says must be selected. -/
theorem c6_counterexample :
    GeoColumns.autoDetectLatLon ["l_at"] = ⟨none, none⟩ ∧
    specNormalizeKey "l_at" = "lat" ∧
    GeoColumns.scoreHeader "lat" GeoColumns.LAT_SYNONYMS = 100 ∧
    GeoColumns.scoreHeader (GeoColumns.normalizeKey "l_at") GeoColumns.LAT_SYNONYMS = 0 := by
  exact ⟨by decide, by decide, by decide, by decide⟩

/-- C6 witness: the amended selection rule instantiated on a concrete header
list with a tie ("lat" and "lat_2" both score 100; the first wins). -/
theorem c6_header_detection_witness :
    GeoColumns.pickBest ["name", "lat", "lat_2"] GeoColumns.LAT_SYNONYMS = some "lat" := by
  rw [c6_header_detection.1 ["name", "lat", "lat_2"] GeoColumns.LAT_SYNONYMS]
  decide


namespace Regions

theorem firstNonEmptyStr_cons (it : VertexItem) (t : List VertexItem) (key : String) :
    firstNonEmptyStr (it :: t) key =
      ((applyStr none (rowGet it.row key)) <|> firstNonEmptyStr t key) := by
  unfold firstNonEmptyStr applyStr
  rw [List.filterMap_cons]
  by_cases h : jsTrim ((rowGet it.row key).getD "") = ""
  · simp [h]
  · simp [h]

theorem firstValidNum_cons (it : VertexItem) (t : List VertexItem) (key : String) :
    firstValidNum (it :: t) key =
      ((applyNum none (rowGet it.row key)) <|> firstValidNum t key) := by
  unfold firstValidNum applyNum
  rw [List.filterMap_cons]
  by_cases h : jsTrim ((rowGet it.row key).getD "") = ""
  · simp [h]
  · simp only [h, if_false]
    cases hq : parseFloatQ (jsTrim ((rowGet it.row key).getD "")) with
    | none => simp
    | some q => simp

theorem applyStr_orElse (cur : Option String) (v : Option String) (rest : Option String) :
    ((applyStr cur v) <|> rest) = (cur <|> ((applyStr none v) <|> rest)) := by
  cases cur with
  | none => rfl
  | some x => rfl

theorem applyNum_orElse (cur : Option ℚ) (v : Option String) (rest : Option ℚ) :
    ((applyNum cur v) <|> rest) = (cur <|> ((applyNum none v) <|> rest)) := by
  cases cur with
  | none => rfl
  | some x => rfl

theorem foldStyle_spec :
    ∀ (items : List VertexItem) (acc : StyleAcc),
      items.foldl (fun a it => styleStep a it.row) acc =
        { color := acc.color <|> firstNonEmptyStr items "color"
          weight := acc.weight <|> firstValidNum items "weight"
          opacity := acc.opacity <|> firstValidNum items "opacity"
          fillColor := acc.fillColor <|> firstNonEmptyStr items "fillColor"
          fillOpacity := acc.fillOpacity <|> firstValidNum items "fillOpacity" } := by
  intro items
  induction items with
  | nil =>
    intro acc
    obtain ⟨c, w, o, fc, fo⟩ := acc
    simp [firstNonEmptyStr, firstValidNum]
  | cons it t ih =>
    intro acc
    rw [List.foldl_cons, ih]
    rw [firstNonEmptyStr_cons, firstValidNum_cons, firstValidNum_cons,
      firstNonEmptyStr_cons, firstValidNum_cons]
    simp only [styleStep]
    congr 1
    · exact applyStr_orElse acc.color (rowGet it.row "color") (firstNonEmptyStr t "color")
    · exact applyNum_orElse acc.weight (rowGet it.row "weight") (firstValidNum t "weight")
    · exact applyNum_orElse acc.opacity (rowGet it.row "opacity") (firstValidNum t "opacity")
    · exact applyStr_orElse acc.fillColor (rowGet it.row "fillColor") (firstNonEmptyStr t "fillColor")
    · exact applyNum_orElse acc.fillOpacity (rowGet it.row "fillOpacity") (firstValidNum t "fillOpacity")

theorem firstNonEmptyStr_ne_empty (items : List VertexItem) (key : String) (s : String)
    (h : firstNonEmptyStr items key = some s) : s ≠ "" := by
  unfold firstNonEmptyStr at h
  have hmem : s ∈ items.filterMap (fun it =>
      let raw := jsTrim ((rowGet it.row key).getD "")
      if raw = "" then none else some raw) :=
    List.mem_of_mem_head? (Option.mem_def.mpr h)
  rw [List.mem_filterMap] at hmem
  obtain ⟨it, _, hit⟩ := hmem
  by_cases hraw : jsTrim ((rowGet it.row key).getD "") = ""
  · simp [hraw] at hit
  · simp only [hraw, if_false] at hit
    cases hit
    exact hraw

end Regions

open Regions in
/-- C9: resolveStyle equals the specification's style resolution: for each of
color, weight, opacity, fillColor and fillOpacity the first non-empty value in
sorted row order (numeric keys parsed as floats with invalid text skipped, the
scan continuing), library defaults for properties never supplied, and the
color/fillColor cross-fill in which a lone explicitly resolved color of either
kind supplies the other while with neither both take their defaults. -/
theorem c9_style_resolution :
    ∀ items : List VertexItem, resolveStyle items = resolveStyleSpec items := by
  intro items
  unfold resolveStyle resolveStyleSpec
  rw [foldStyle_spec items emptyStyleAcc]
  simp only [emptyStyleAcc, Option.none_orElse]
  cases hc : firstNonEmptyStr items "color" with
  | some cv =>
    have hcv : cv ≠ "" := firstNonEmptyStr_ne_empty items "color" cv hc
    cases hf : firstNonEmptyStr items "fillColor" with
    | some fv => simp [hc, hf]
    | none => simp [hc, hf, hcv]
  | none =>
    cases hf : firstNonEmptyStr items "fillColor" with
    | some fv =>
      have hfv : fv ≠ "" := firstNonEmptyStr_ne_empty items "fillColor" fv hf
      simp [hc, hf, hfv, DEFAULT_STYLE_color]
    | none => simp [hc, hf, DEFAULT_STYLE_color, DEFAULT_STYLE_fillColor]

/-- C9 witness: a part whose rows set only fillColor (with invalid numeric
text under weight on the first row, skipped in favor of the second row's
value) resolves to a style whose color inherits the fillColor. -/
theorem c9_style_resolution_witness :
    Regions.resolveStyle
      [{ row := [("fillColor", "#123456"), ("weight", "abc")], lat := 0, lon := 0,
         orderValue := none, index := 0 },
       { row := [("weight", " 3 ")], lat := 0, lon := 0, orderValue := none, index := 1 }] =
      { color := "#123456", weight := 3, opacity := 1, fillColor := "#123456",
        fillOpacity := 1 / 4 } := by
  rw [c9_style_resolution]
  decide!

theorem derivePointsLoop_spec (pd : DateParser) (latField lonField : String)
    (timelineEnabled dayEnabled : Bool) (startYear endYear : Option Int)
    (startDay endDay : Int) (tf : TimelineMod.TimelineFields)
    (rf : TimelineMod.RangeFields) (ftf : Option String) :
    ∀ (rows : List Row) (i : Nat),
      (∀ p ∈ (derivePointsLoop pd latField lonField timelineEnabled dayEnabled startYear endYear
          startDay endDay tf rf ftf i rows).1,
        GeoColumns.isValidLat (some p.lat) = true ∧ GeoColumns.isValidLon (some p.lon) = true) ∧
      (derivePointsLoop pd latField lonField timelineEnabled dayEnabled startYear endYear
          startDay endDay tf rf ftf i rows).2.1 =
        (rows.filter (fun r =>
          pointCandidate ftf r && pointInvalidCoords latField lonField r)).length := by
  intro rows
  induction rows with
  | nil =>
    intro i
    exact ⟨by simp [derivePointsLoop], by simp [derivePointsLoop]⟩
  | cons r rest ih =>
    intro i
    obtain ⟨ihpts, ihcnt⟩ := ih (i + 1)
    have hcand : pointCandidate ftf r =
        !((getRowFeatureType r ftf).isSome && getRowFeatureType r ftf != some "point") := rfl
    have hinv : pointInvalidCoords latField lonField r =
        !(GeoColumns.isValidLat (GeoColumns.parseFlexibleFloat (rowGet r latField)) &&
          GeoColumns.isValidLon (GeoColumns.parseFlexibleFloat (rowGet r lonField))) := rfl
    by_cases hft : ((getRowFeatureType r ftf).isSome &&
        getRowFeatureType r ftf != some "point") = true
    · have hcf : pointCandidate ftf r = false := by rw [hcand, hft]; rfl
      constructor
      · intro p hp
        apply ihpts
        simpa [derivePointsLoop, hft] using hp
      · simp [derivePointsLoop, hft, List.filter_cons, hcf, ihcnt]
    · have hft' : ((getRowFeatureType r ftf).isSome &&
          getRowFeatureType r ftf != some "point") = false := by
        revert hft
        cases ((getRowFeatureType r ftf).isSome && getRowFeatureType r ftf != some "point") <;> simp
      have hct : pointCandidate ftf r = true := by rw [hcand, hft']; rfl
      by_cases hval : (!(GeoColumns.isValidLat (GeoColumns.parseFlexibleFloat (rowGet r latField)) &&
          GeoColumns.isValidLon (GeoColumns.parseFlexibleFloat (rowGet r lonField)))) = true
      · have hit : pointInvalidCoords latField lonField r = true := by rw [hinv, hval]
        constructor
        · intro p hp
          apply ihpts
          simpa [derivePointsLoop, hft', hval] using hp
        · simp [derivePointsLoop, hft', hval, List.filter_cons, hct, hit, ihcnt]
      · have hval' : (!(GeoColumns.isValidLat (GeoColumns.parseFlexibleFloat (rowGet r latField)) &&
            GeoColumns.isValidLon (GeoColumns.parseFlexibleFloat (rowGet r lonField)))) = false := by
          revert hval
          cases (GeoColumns.isValidLat (GeoColumns.parseFlexibleFloat (rowGet r latField)) &&
            GeoColumns.isValidLon (GeoColumns.parseFlexibleFloat (rowGet r lonField))) <;> simp
        have hif : pointInvalidCoords latField lonField r = false := by rw [hinv, hval']
        have hboth : GeoColumns.isValidLat (GeoColumns.parseFlexibleFloat (rowGet r latField)) = true ∧
            GeoColumns.isValidLon (GeoColumns.parseFlexibleFloat (rowGet r lonField)) = true := by
          revert hval'
          cases hla : GeoColumns.isValidLat (GeoColumns.parseFlexibleFloat (rowGet r latField)) <;>
            cases hlo : GeoColumns.isValidLon (GeoColumns.parseFlexibleFloat (rowGet r lonField)) <;>
              simp
        by_cases htl : (timelineEnabled &&
            !(isPointVisibleForTimeline pd r tf rf startYear endYear startDay endDay dayEnabled)) = true
        · constructor
          · intro p hp
            apply ihpts
            simpa [derivePointsLoop, hft', hval', htl] using hp
          · simp [derivePointsLoop, hft', hval', htl, List.filter_cons, hct, hif, ihcnt]
        · have htl' : (timelineEnabled &&
              !(isPointVisibleForTimeline pd r tf rf startYear endYear startDay endDay dayEnabled)) = false := by
            revert htl
            cases (timelineEnabled &&
              !(isPointVisibleForTimeline pd r tf rf startYear endYear startDay endDay dayEnabled)) <;> simp
          constructor
          · intro p hp
            rw [derivePointsLoop] at hp
            simp only [hft', hval', htl', Bool.false_eq_true, if_false, List.mem_cons] at hp
            rcases hp with hp | hp
            · subst hp
              refine ⟨?_, ?_⟩
              · cases hla : GeoColumns.parseFlexibleFloat (rowGet r latField) with
                | none => rw [hla] at hboth; exact absurd hboth.1 (by simp [GeoColumns.isValidLat])
                | some q => simpa [hla] using hboth.1
              · cases hlo : GeoColumns.parseFlexibleFloat (rowGet r lonField) with
                | none => rw [hlo] at hboth; exact absurd hboth.2 (by simp [GeoColumns.isValidLon])
                | some q => simpa [hlo] using hboth.2
            · exact ihpts _ hp
          · simp [derivePointsLoop, hft', hval', htl', List.filter_cons, hct, hif, ihcnt]

/-- C4: coordinate parsing strips whitespace and converts a decimal comma to a
dot (so "59,3293" parses to 59.3293) and rejects non-finite results; the
validity predicates accept exactly the (finite) values in [-90,90] and
[-180,180]; every emitted point satisfies them; and the skipped counter counts
exactly the candidate rows failing them (which therefore emit no point). -/
theorem c4_coordinate_validity :
    GeoColumns.parseFlexibleFloat (some "59,3293") = some (593293 / 10000) ∧
    GeoColumns.parseFlexibleFloat (some " 1 234,56 ") = some (123456 / 100) ∧
    GeoColumns.parseFlexibleFloat (some "Infinity") = none ∧
    GeoColumns.parseFlexibleFloat (some "abc") = none ∧
    (∀ o : Option ℚ, GeoColumns.isValidLat o = true ↔ ∃ q, o = some q ∧ -90 ≤ q ∧ q ≤ 90) ∧
    (∀ o : Option ℚ, GeoColumns.isValidLon o = true ↔ ∃ q, o = some q ∧ -180 ≤ q ∧ q ≤ 180) ∧
    (∀ (pd : DateParser) (args : PointArgs),
      ∀ p ∈ (derivePointsFromCsv pd args).points,
        GeoColumns.isValidLat (some p.lat) = true ∧ GeoColumns.isValidLon (some p.lon) = true) ∧
    (∀ (pd : DateParser) (rows : List Row) (latField lonField : String)
        (tl : Option Timeline) (tf : TimelineMod.TimelineFields)
        (rf : TimelineMod.RangeFields) (ftf : Option String),
      (derivePointsFromCsv pd
        { rows := rows, latField := some latField, lonField := some lonField, timeline := tl,
          timelineFields := tf, rangeFields := rf, featureTypeField := ftf }).skipped =
        (rows.filter (fun r =>
          pointCandidate ftf r && pointInvalidCoords latField lonField r)).length) := by
  refine ⟨by decide!, by decide!,
    by decide!, by decide!, ?_, ?_, ?_, ?_⟩
  · intro o
    cases o with
    | none => simp [GeoColumns.isValidLat]
    | some q => simp [GeoColumns.isValidLat]
  · intro o
    cases o with
    | none => simp [GeoColumns.isValidLon]
    | some q => simp [GeoColumns.isValidLon]
  · intro pd args p hp
    unfold derivePointsFromCsv at hp
    match hlat : args.latField, hlon : args.lonField with
    | some lf, some lg =>
      rw [hlat, hlon] at hp
      exact (derivePointsLoop_spec pd lf lg _ _ _ _ _ _ _ _ _ args.rows 0).1 p hp
    | some lf, none => rw [hlat, hlon] at hp; simp at hp
    | none, _ => rw [hlat] at hp; simp at hp
  · intro pd rows latField lonField tl tf rf ftf
    exact (derivePointsLoop_spec pd latField lonField _ _ _ _ _ _ _ _ _ rows 0).2

/-- C4 witness: a mixed batch where the out-of-range latitude row and the
unparseable row are counted as skipped, and the emitted points carry valid
coordinates. -/
theorem c4_coordinate_validity_witness :
    (derivePointsFromCsv (fun _ => none)
      { rows := [[("lat", "59,3293"), ("lon", "18")], [("lat", "200"), ("lon", "18")],
          [("lat", "abc"), ("lon", "18")]],
        latField := some "lat", lonField := some "lon", timeline := none,
        timelineFields := ⟨none, none, none⟩, rangeFields := ⟨none, none, none, none⟩,
        featureTypeField := none }).skipped = 2 := by
  rw [c4_coordinate_validity.2.2.2.2.2.2.2 (fun _ => none)
    [[("lat", "59,3293"), ("lon", "18")], [("lat", "200"), ("lon", "18")],
      [("lat", "abc"), ("lon", "18")]] "lat" "lon" none ⟨none, none, none⟩
    ⟨none, none, none, none⟩ none]
  decide!

namespace Regions

theorem regionsPass1_skipped (pd : DateParser) (latField lonField : String)
    (timelineEnabled dayEnabled : Bool) (startYear endYear : Option Int)
    (startDay endDay : Int) (tf : TimelineMod.TimelineFields)
    (rf : TimelineMod.RangeFields) (ftf : Option String) :
    ∀ (rows : List Row) (i : Nat) (groups : List (String × RegionGroup))
      (skipped skippedByTimeline : Nat),
      (regionsPass1 pd latField lonField timelineEnabled dayEnabled startYear endYear
          startDay endDay tf rf ftf i rows groups skipped skippedByTimeline).2.1 =
        skipped + (rows.filter (regionSkipPred pd latField lonField timelineEnabled dayEnabled
          startYear endYear startDay endDay tf rf ftf)).length := by
  intro rows
  induction rows with
  | nil =>
    intro i groups skipped skt
    simp [regionsPass1]
  | cons row rest ih =>
    intro i groups skipped skt
    by_cases hr : getRowFeatureType row ftf = some "region"
    · by_cases htl : (timelineEnabled &&
          !(isRowVisibleForTimeline pd row tf rf startYear endYear startDay endDay dayEnabled)) = true
      · have hp : regionSkipPred pd latField lonField timelineEnabled dayEnabled
            startYear endYear startDay endDay tf rf ftf row = false := by
          simp [regionSkipPred, htl]
        simp [regionsPass1, bne, hr, htl, List.filter_cons, hp, ih (i + 1) groups skipped (skt + 1)]
      · by_cases hfid : jsTrim ((rowGet row "featureId").getD "") = ""
        · have hp : regionSkipPred pd latField lonField timelineEnabled dayEnabled
              startYear endYear startDay endDay tf rf ftf row = true := by
            simp only [regionSkipPred, hfid]
            simp [hr, htl]
          rw [regionsPass1]
          simp only [bne, hr, beq_self_eq_true, Bool.not_true, Bool.false_eq_true, if_false,
            htl, hfid, if_true]
          rw [List.filter_cons, hp, ih (i + 1) groups (skipped + 1) skt]
          simp only [if_true, List.length_cons]
          omega
        · by_cases hv : (GeoColumns.isValidLat (GeoColumns.parseFlexibleFloat (rowGet row latField)) &&
              GeoColumns.isValidLon (GeoColumns.parseFlexibleFloat (rowGet row lonField))) = true
          · have hp : regionSkipPred pd latField lonField timelineEnabled dayEnabled
                startYear endYear startDay endDay tf rf ftf row = false := by
              simp [regionSkipPred, hr, htl, hfid, hv]
            rw [regionsPass1]
            simp only [bne, hr, beq_self_eq_true, Bool.not_true, Bool.false_eq_true, if_false,
              htl, hfid, hv, Bool.not_true]
            rw [List.filter_cons, hp]
            simp only [Bool.false_eq_true, if_false]
            exact ih (i + 1) _ skipped skt
          · have hv' : (GeoColumns.isValidLat (GeoColumns.parseFlexibleFloat (rowGet row latField)) &&
                GeoColumns.isValidLon (GeoColumns.parseFlexibleFloat (rowGet row lonField))) = false := by
              revert hv
              cases (GeoColumns.isValidLat (GeoColumns.parseFlexibleFloat (rowGet row latField)) &&
                GeoColumns.isValidLon (GeoColumns.parseFlexibleFloat (rowGet row lonField))) <;> simp
            have hp : regionSkipPred pd latField lonField timelineEnabled dayEnabled
                startYear endYear startDay endDay tf rf ftf row = true := by
              simp [regionSkipPred, hr, htl, hfid, hv']
            rw [regionsPass1]
            simp only [bne, hr, beq_self_eq_true, Bool.not_true, Bool.false_eq_true, if_false,
              htl, hfid, hv', Bool.not_false, if_true]
            rw [List.filter_cons, hp, ih (i + 1) groups (skipped + 1) skt]
            simp only [if_true, List.length_cons]
            omega
    · have hp : regionSkipPred pd latField lonField timelineEnabled dayEnabled
          startYear endYear startDay endDay tf rf ftf row = false := by
        simp [regionSkipPred, hr]
      simp [regionsPass1, bne, hr, List.filter_cons, hp, ih (i + 1) groups skipped skt]

theorem firstNonEmptyStr_of_absent (items : List VertexItem) (key : String)
    (h : ∀ it ∈ items, rowGet it.row key = none) : firstNonEmptyStr items key = none := by
  unfold firstNonEmptyStr
  have : items.filterMap (fun it =>
      let raw := jsTrim ((rowGet it.row key).getD "")
      if raw = "" then none else some raw) = [] := by
    rw [List.filterMap_eq_nil_iff]
    intro it hit
    rw [h it hit]
    simp [jsTrim, trimCharsL]
  rw [this]
  rfl

theorem firstValidNum_of_absent (items : List VertexItem) (key : String)
    (h : ∀ it ∈ items, rowGet it.row key = none) : firstValidNum items key = none := by
  unfold firstValidNum
  have : items.filterMap (fun it =>
      let raw := jsTrim ((rowGet it.row key).getD "")
      if raw = "" then none else parseFloatQ raw) = [] := by
    rw [List.filterMap_eq_nil_iff]
    intro it hit
    rw [h it hit]
    simp [jsTrim, trimCharsL]
  rw [this]
  rfl

end Regions

open Regions in
/-- C10: the region grouping key featureId, the part sub-key, the vertex order
and the style keys are read by exact case-sensitive lookup (unlike the
detected/mapped feature-type, latitude and longitude columns): the skipped
counter counts exactly the region-typed timeline-surviving rows whose exact
"featureId" cell is blank or whose coordinates fail validation; rows carrying
only the wrong-case "FeatureId" spelling produce no polygon and are all
counted as skipped; and a part whose rows have no exact-case style keys
resolves to the library default style. -/
theorem c10_exact_key_lookup :
    (∀ (pd : DateParser) (rows : List Row) (latField lonField : String)
        (tl : Option Timeline) (tf : TimelineMod.TimelineFields)
        (rf : TimelineMod.RangeFields) (ftfName : String),
      (deriveRegionsFromCsv pd
        { rows := rows, latField := some latField, lonField := some lonField, timeline := tl,
          timelineFields := tf, rangeFields := rf, featureTypeField := some ftfName }).skipped =
        (rows.filter (regionSkipPred pd latField lonField
          ((tl.map Timeline.timelineEnabled).getD false) ((tl.map Timeline.dayFilterEnabled).getD false)
          ((tl.bind Timeline.startYear) <|> tl.bind Timeline.yearMin)
          ((tl.bind Timeline.endYear) <|> tl.bind Timeline.yearMax)
          ((tl.bind Timeline.startDay).getD 1) ((tl.bind Timeline.endDay).getD 365)
          tf rf (some ftfName))).length) ∧
    (∀ items : List VertexItem,
      (∀ it ∈ items, rowGet it.row "color" = none ∧ rowGet it.row "weight" = none ∧
        rowGet it.row "opacity" = none ∧ rowGet it.row "fillColor" = none ∧
        rowGet it.row "fillOpacity" = none) →
      resolveStyle items =
        { color := "#3388ff", weight := 2, opacity := 1, fillColor := "#3388ff",
          fillOpacity := 1 / 4 }) ∧
    (deriveRegionsFromCsv (fun _ => none)
      { rows := [[("featureType", "region"), ("FeatureId", "A"), ("lat", "1"), ("lon", "1")],
          [("featureType", "region"), ("FeatureId", "A"), ("lat", "2"), ("lon", "1")],
          [("featureType", "region"), ("FeatureId", "A"), ("lat", "2"), ("lon", "2")]],
        latField := some "lat", lonField := some "lon", timeline := none,
        timelineFields := ⟨none, none, none⟩, rangeFields := ⟨none, none, none, none⟩,
        featureTypeField := some "featureType" } =
      { polygons := [], skipped := 3, skippedByTimeline := 0, reason := none }) ∧
    (deriveRegionsFromCsv (fun _ => none)
      { rows := [[("featureType", "region"), ("featureId", "A"), ("Part", "x"), ("Order", "9"),
            ("COLOR", "#f00"), ("lat", "1"), ("lon", "1")],
          [("featureType", "region"), ("featureId", "A"), ("Part", "x"), ("Order", "8"),
            ("COLOR", "#f00"), ("lat", "2"), ("lon", "1")],
          [("featureType", "region"), ("featureId", "A"), ("Part", "x"), ("Order", "7"),
            ("COLOR", "#f00"), ("lat", "2"), ("lon", "2")]],
        latField := some "lat", lonField := some "lon", timeline := none,
        timelineFields := ⟨none, none, none⟩, rangeFields := ⟨none, none, none, none⟩,
        featureTypeField := some "featureType" } =
      { polygons := [{
          id := "A:0", featureId := "A", part := "0",
          coordinates := [(1, 1), (2, 1), (2, 2), (1, 1)],
          row := some [("featureType", "region"), ("featureId", "A"), ("Part", "x"), ("Order", "9"),
            ("COLOR", "#f00"), ("lat", "1"), ("lon", "1")],
          style := {
            color := "#3388ff", weight := 2, opacity := 1, fillColor := "#3388ff",
            fillOpacity := 1 / 4 } }],
        skipped := 0, skippedByTimeline := 0, reason := none }) := by
  refine ⟨?_, ?_, by decide!, by decide!⟩
  · intro pd rows latField lonField tl tf rf ftfName
    have h := regionsPass1_skipped pd latField lonField
      ((tl.map Timeline.timelineEnabled).getD false) ((tl.map Timeline.dayFilterEnabled).getD false)
      ((tl.bind Timeline.startYear) <|> tl.bind Timeline.yearMin)
      ((tl.bind Timeline.endYear) <|> tl.bind Timeline.yearMax)
      ((tl.bind Timeline.startDay).getD 1) ((tl.bind Timeline.endDay).getD 365)
      tf rf (some ftfName) rows 0 [] 0 0
    rw [Nat.zero_add] at h
    exact h
  · intro items habsent
    unfold resolveStyle
    rw [foldStyle_spec items emptyStyleAcc]
    rw [firstNonEmptyStr_of_absent items "color" (fun it h => (habsent it h).1),
      firstValidNum_of_absent items "weight" (fun it h => (habsent it h).2.1),
      firstValidNum_of_absent items "opacity" (fun it h => (habsent it h).2.2.1),
      firstNonEmptyStr_of_absent items "fillColor" (fun it h => (habsent it h).2.2.2.1),
      firstValidNum_of_absent items "fillOpacity" (fun it h => (habsent it h).2.2.2.2)]
    decide!

/-- C10 witness: the skipped-count characterization instantiated on one
wrong-case "FeatureId" row next to one well-keyed row. -/
theorem c10_exact_key_lookup_witness :
    (Regions.deriveRegionsFromCsv (fun _ => none)
      { rows := [[("featureType", "region"), ("FeatureId", "B"), ("lat", "5"), ("lon", "5")],
          [("featureType", "point"), ("lat", "5"), ("lon", "5")]],
        latField := some "lat", lonField := some "lon", timeline := none,
        timelineFields := ⟨none, none, none⟩, rangeFields := ⟨none, none, none, none⟩,
        featureTypeField := some "featureType" }).skipped = 1 := by
  rw [c10_exact_key_lookup.1 (fun _ => none)
    [[("featureType", "region"), ("FeatureId", "B"), ("lat", "5"), ("lon", "5")],
      [("featureType", "point"), ("lat", "5"), ("lon", "5")]]
    "lat" "lon" none ⟨none, none, none⟩ ⟨none, none, none, none⟩ "featureType"]
  decide!

theorem ifOverlap_eq_windowOverlaps (a b : Int) (sy ey : Option Int) :
    (if (match ey with | some e => decide (e < a) | none => false) = true then false
     else if (match sy with | some s => decide (b < s) | none => false) = true then false
     else true) = windowOverlaps sy ey a b := by
  unfold windowOverlaps
  cases ey with
  | none =>
    cases sy with
    | none => simp
    | some s =>
      by_cases hs : b < s
      · simp [hs, Int.not_le.mpr hs]
      · simp [hs, Int.not_lt.mp hs]
  | some e =>
    by_cases he : e < a
    · simp [he, Int.not_le.mpr he]
    · cases sy with
      | none => simp [he, Int.not_lt.mp he]
      | some s =>
        by_cases hs : b < s
        · simp [he, hs, Int.not_lt.mp he, Int.not_le.mpr hs]
        · simp [he, hs, Int.not_lt.mp he, Int.not_lt.mp hs]

theorem ifYear_eq_yearInWindow (sy ey : Option Int) (y : Int) (k : Bool) :
    (if (match sy with | some s => decide (y < s) | none => false) = true then false
     else if (match ey with | some e => decide (e < y) | none => false) = true then false
     else k) = (yearInWindow sy ey y && k) := by
  unfold yearInWindow
  cases sy with
  | none =>
    cases ey with
    | none => simp
    | some e =>
      by_cases he : e < y
      · simp [he, Int.not_le.mpr he]
      · simp [he, Int.not_lt.mp he]
  | some s =>
    by_cases hs : y < s
    · simp [hs, Int.not_le.mpr hs]
    · cases ey with
      | none => simp [hs, Int.not_lt.mp hs]
      | some e =>
        by_cases he : e < y
        · simp [hs, he, Int.not_lt.mp hs, Int.not_le.mpr he]
        · simp [hs, he, Int.not_lt.mp hs, Int.not_lt.mp he]

/-- C1: whenever a row resolves an interval (yearFrom/yearTo with date-column
fallback per side, at least one side parseable), timeline visibility is
interval overlap: the single resolved side serves as both bounds, the pair is
normalized by min/max, visibility holds iff the optional-bound window
[startYear, endYear] intersects [rangeStart, rangeEnd], and the result is
independent of the day-of-year sub-filter configuration even when it is
enabled; the region-side visibility function is the same function. -/
theorem c1_interval_overlap :
    (∀ (pd : DateParser) (row : Row) (tf : TimelineMod.TimelineFields)
        (rf : TimelineMod.RangeFields) (startYear endYear : Option Int),
      ((getRangeYear pd row rf.yearFromField rf.dateFromField).isSome = true ∨
        (getRangeYear pd row rf.yearToField rf.dateToField).isSome = true) →
      ∃ fy ty,
        ((getRangeYear pd row rf.yearFromField rf.dateFromField) <|>
          (getRangeYear pd row rf.yearToField rf.dateToField)) = some fy ∧
        ((getRangeYear pd row rf.yearToField rf.dateToField) <|>
          (getRangeYear pd row rf.yearFromField rf.dateFromField)) = some ty ∧
        ∀ (startDay endDay : Int) (dayEnabled : Bool),
          isPointVisibleForTimeline pd row tf rf startYear endYear startDay endDay dayEnabled =
            windowOverlaps startYear endYear (min fy ty) (max fy ty)) ∧
    isRowVisibleForTimeline = isPointVisibleForTimeline := by
  constructor
  · intro pd row tf rf startYear endYear hrange
    cases hyF : getRangeYear pd row rf.yearFromField rf.dateFromField with
    | some a =>
      cases hyT : getRangeYear pd row rf.yearToField rf.dateToField with
      | some b =>
        refine ⟨a, b, by simp [hyF, hyT], by simp [hyF, hyT], ?_⟩
        intro sd ed de
        unfold isPointVisibleForTimeline
        rw [hyF, hyT]
        simp only [Option.isSome_some, Bool.true_or, if_true, Option.some_orElse]
        exact ifOverlap_eq_windowOverlaps (min a b) (max a b) startYear endYear
      | none =>
        refine ⟨a, a, by simp [hyF, hyT], by simp [hyF, hyT], ?_⟩
        intro sd ed de
        unfold isPointVisibleForTimeline
        rw [hyF, hyT]
        simp only [Option.isSome_some, Bool.true_or, if_true, Option.some_orElse,
          Option.none_orElse]
        exact ifOverlap_eq_windowOverlaps (min a a) (max a a) startYear endYear
    | none =>
      cases hyT : getRangeYear pd row rf.yearToField rf.dateToField with
      | some b =>
        refine ⟨b, b, by simp [hyF, hyT], by simp [hyF, hyT], ?_⟩
        intro sd ed de
        unfold isPointVisibleForTimeline
        rw [hyF, hyT]
        simp only [Option.isSome_none, Option.isSome_some, Bool.or_true, if_true,
          Option.some_orElse, Option.none_orElse]
        exact ifOverlap_eq_windowOverlaps (min b b) (max b b) startYear endYear
      | none =>
        rw [hyF, hyT] at hrange
        rcases hrange with h | h <;> simp at h
  · rfl

/-- C1 witness: the spec's interval examples: window [1900,1950] includes the
row with yearFrom 1920 / yearTo 1960 (overlap) even with the day filter
enabled at a window that excludes every day, and excludes the row with
yearFrom 1960 / yearTo 1970. -/
theorem c1_interval_overlap_witness :
    isPointVisibleForTimeline (fun _ => none)
      [("yearFrom", "1920"), ("yearTo", "1960")] ⟨none, none, none⟩
      ⟨some "yearFrom", some "yearTo", none, none⟩ (some 1900) (some 1950) 400 (-5) true = true ∧
    isPointVisibleForTimeline (fun _ => none)
      [("yearFrom", "1960"), ("yearTo", "1970")] ⟨none, none, none⟩
      ⟨some "yearFrom", some "yearTo", none, none⟩ (some 1900) (some 1950) 1 365 false = false := by
  constructor
  · obtain ⟨fy, ty, hfy, hty, hvis⟩ := c1_interval_overlap.1 (fun _ => none)
      [("yearFrom", "1920"), ("yearTo", "1960")] ⟨none, none, none⟩
      ⟨some "yearFrom", some "yearTo", none, none⟩ (some 1900) (some 1950)
      (Or.inl (by decide!))
    rw [hvis 400 (-5) true]
    have h1 : fy = 1920 := by
      have he : ((getRangeYear (fun _ => none) [("yearFrom", "1920"), ("yearTo", "1960")]
          (some "yearFrom") none) <|>
        (getRangeYear (fun _ => none) [("yearFrom", "1920"), ("yearTo", "1960")]
          (some "yearTo") none)) = some 1920 := by decide!
      rw [he] at hfy
      exact (Option.some.inj hfy).symm
    have h2 : ty = 1960 := by
      have he : ((getRangeYear (fun _ => none) [("yearFrom", "1920"), ("yearTo", "1960")]
          (some "yearTo") none) <|>
        (getRangeYear (fun _ => none) [("yearFrom", "1920"), ("yearTo", "1960")]
          (some "yearFrom") none)) = some 1960 := by decide!
      rw [he] at hty
      exact (Option.some.inj hty).symm
    rw [h1, h2]
    decide!
  · obtain ⟨fy, ty, hfy, hty, hvis⟩ := c1_interval_overlap.1 (fun _ => none)
      [("yearFrom", "1960"), ("yearTo", "1970")] ⟨none, none, none⟩
      ⟨some "yearFrom", some "yearTo", none, none⟩ (some 1900) (some 1950)
      (Or.inl (by decide!))
    rw [hvis 1 365 false]
    have h1 : fy = 1960 := by
      have he : ((getRangeYear (fun _ => none) [("yearFrom", "1960"), ("yearTo", "1970")]
          (some "yearFrom") none) <|>
        (getRangeYear (fun _ => none) [("yearFrom", "1960"), ("yearTo", "1970")]
          (some "yearTo") none)) = some 1960 := by decide!
      rw [he] at hfy
      exact (Option.some.inj hfy).symm
    have h2 : ty = 1970 := by
      have he : ((getRangeYear (fun _ => none) [("yearFrom", "1960"), ("yearTo", "1970")]
          (some "yearTo") none) <|>
        (getRangeYear (fun _ => none) [("yearFrom", "1960"), ("yearTo", "1970")]
          (some "yearFrom") none)) = some 1970 := by decide!
      rw [he] at hty
      exact (Option.some.inj hty).symm
    rw [h1, h2]
    decide!

theorem tryParseDayOfYear_none_of_unresolvable (pd : DateParser) (row : Row)
    (tf : TimelineMod.TimelineFields) (h : dayUnresolvableSpec pd row tf = true) :
    TimelineMod.tryParseDayOfYear pd row tf = none := by
  unfold dayUnresolvableSpec at h
  rw [Bool.and_eq_true] at h
  obtain ⟨h1, h2⟩ := h
  unfold TimelineMod.tryParseDayOfYear
  cases hdoy : tf.dayOfYearField with
  | some f =>
    rw [hdoy] at h1
    dsimp only at h1 ⊢
    cases hint : parseIntSafe (rowGet row f) with
    | none => rfl
    | some n =>
      rw [hint] at h1
      dsimp only at h1 ⊢
      rw [if_neg (of_decide_eq_true h1)]
  | none =>
    cases hdate : tf.dateField with
    | some f =>
      rw [hdate] at h2
      dsimp only at h2 ⊢
      rw [Option.isNone_iff_eq_none] at h2
      rw [h2]
    | none => rfl

/-- C2: under point-in-time semantics (no interval side resolves) with the
day-of-year sub-filter enabled, visibility equals: a year resolves and lies in
the optional window, and a day-of-year resolves and satisfies the wrap test
(the closed interval [startDay, endDay] when startDay ≤ endDay, the wrapped
union doy ≥ startDay OR doy ≤ endDay otherwise); and a row with no explicit
day-of-year cell in [1,365] and no parseable date cell is invisible. -/
theorem c2_day_of_year_filter :
    ∀ (pd : DateParser) (row : Row) (tf : TimelineMod.TimelineFields)
      (rf : TimelineMod.RangeFields) (startYear endYear : Option Int)
      (startDay endDay : Int),
      getRangeYear pd row rf.yearFromField rf.dateFromField = none →
      getRangeYear pd row rf.yearToField rf.dateToField = none →
      (isPointVisibleForTimeline pd row tf rf startYear endYear startDay endDay true =
        (match TimelineMod.tryGetYear pd row tf with
         | none => false
         | some year =>
           yearInWindow startYear endYear year &&
             (match TimelineMod.tryParseDayOfYear pd row tf with
              | none => false
              | some doy => dayInWrapWindow startDay endDay doy))) ∧
      (dayUnresolvableSpec pd row tf = true →
        isPointVisibleForTimeline pd row tf rf startYear endYear startDay endDay true = false) := by
  intro pd row tf rf startYear endYear startDay endDay hyF hyT
  have hvis : isPointVisibleForTimeline pd row tf rf startYear endYear startDay endDay true =
      (match TimelineMod.tryGetYear pd row tf with
       | none => false
       | some year =>
         yearInWindow startYear endYear year &&
           (match TimelineMod.tryParseDayOfYear pd row tf with
            | none => false
            | some doy => dayInWrapWindow startDay endDay doy)) := by
    unfold isPointVisibleForTimeline
    rw [hyF, hyT]
    simp only [Option.isSome_none, Bool.or_self, Bool.false_eq_true, if_false]
    cases hyear : TimelineMod.tryGetYear pd row tf with
    | none => rfl
    | some year =>
      dsimp only
      cases hdoy : TimelineMod.tryParseDayOfYear pd row tf with
      | none =>
        dsimp only
        rw [ifYear_eq_yearInWindow startYear endYear year]
        simp
      | some doy =>
        dsimp only
        rw [ifYear_eq_yearInWindow startYear endYear year]
        rfl
  refine ⟨hvis, ?_⟩
  intro hunres
  rw [hvis, tryParseDayOfYear_none_of_unresolvable pd row tf hunres]
  cases TimelineMod.tryGetYear pd row tf with
  | none => rfl
  | some year => simp
/-- C2 witness: with startDay 350 and endDay 10 (wrap across the year
boundary), the explicit day-of-year 5 is visible and 200 is not; and a row
with an out-of-range explicit day-of-year and no date is invisible. -/
theorem c2_day_of_year_filter_witness :
    isPointVisibleForTimeline (fun _ => none) [("year", "2000"), ("doy", "5")]
      ⟨some "year", none, some "doy"⟩ ⟨none, none, none, none⟩
      none none 350 10 true = true ∧
    isPointVisibleForTimeline (fun _ => none) [("year", "2000"), ("doy", "200")]
      ⟨some "year", none, some "doy"⟩ ⟨none, none, none, none⟩
      none none 350 10 true = false ∧
    isPointVisibleForTimeline (fun _ => none) [("year", "2000"), ("doy", "999")]
      ⟨some "year", none, some "doy"⟩ ⟨none, none, none, none⟩
      none none 1 365 true = false := by
  refine ⟨?_, ?_, ?_⟩
  · rw [(c2_day_of_year_filter (fun _ => none) [("year", "2000"), ("doy", "5")]
      ⟨some "year", none, some "doy"⟩ ⟨none, none, none, none⟩ none none 350 10
      (by decide!) (by decide!)).1]
    decide!
  · rw [(c2_day_of_year_filter (fun _ => none) [("year", "2000"), ("doy", "200")]
      ⟨some "year", none, some "doy"⟩ ⟨none, none, none, none⟩ none none 350 10
      (by decide!) (by decide!)).1]
    decide!
  · exact (c2_day_of_year_filter (fun _ => none) [("year", "2000"), ("doy", "999")]
      ⟨some "year", none, some "doy"⟩ ⟨none, none, none, none⟩ none none 1 365
      (by decide!) (by decide!)).2 (by decide!)

namespace CsvParse

theorem pushErr_length_le (l : List String) (m : String) (h : l.length ≤ 200) :
    (pushErr l m).length ≤ 200 := by
  unfold pushErr MAX_ERRORS
  by_cases hl : l.length < 200
  · rw [if_pos hl]
    simp only [List.length_append, List.length_cons, List.length_nil]
    omega
  · rw [if_neg hl]
    exact h

theorem processBody_errs_le (headers : List String) (headerIndex : Nat) :
    ∀ (body : List (List String)) (i : Nat) (errs : List String),
      errs.length ≤ 200 → (processBody headers headerIndex i body errs).2.length ≤ 200 := by
  intro body
  induction body with
  | nil => intro i errs h; exact h
  | cons rowArr rest ih =>
    intro i errs h
    rw [processBody]
    by_cases hblank : (rowArr.all (fun v => jsTrim v == "")) = true
    · rw [if_pos hblank]
      exact ih (i + 1) errs h
    · rw [if_neg hblank]
      by_cases hlong : headers.length < rowArr.length
      · rw [if_pos hlong]
        exact ih (i + 1) _ (pushErr_length_le _ _ h)
      · rw [if_neg hlong]
        exact ih (i + 1) _ h

theorem processBody_rows_keys (headers : List String) (headerIndex : Nat) :
    ∀ (body : List (List String)) (i : Nat) (errs : List String),
      ∀ r ∈ (processBody headers headerIndex i body errs).1, r.map Prod.fst = headers := by
  intro body
  induction body with
  | nil => intro i errs r hr; simp [processBody] at hr
  | cons rowArr rest ih =>
    intro i errs r hr
    rw [processBody] at hr
    by_cases hblank : (rowArr.all (fun v => jsTrim v == "")) = true
    · rw [if_pos hblank] at hr
      exact ih (i + 1) errs r hr
    · rw [if_neg hblank] at hr
      have hzip : (headers.zip ((List.range headers.length).map
          (fun c => jsTrim (rowArr.getD c "")))).map Prod.fst = headers := by
        apply List.map_fst_zip
        simp
      by_cases hlong : headers.length < rowArr.length
      · rw [if_pos hlong] at hr
        dsimp only at hr
        rcases List.mem_cons.mp hr with h | h
        · rw [h]; exact hzip
        · exact ih (i + 1) _ r h
      · rw [if_neg hlong] at hr
        dsimp only at hr
        rcases List.mem_cons.mp hr with h | h
        · rw [h]; exact hzip
        · exact ih (i + 1) _ r h

theorem padTruncate_values (n : Nat) :
    ∀ (rowArr : List String),
      ((List.range n).map (fun c => jsTrim (rowArr.getD c ""))) =
        ((rowArr.take n).map jsTrim) ++ List.replicate (n - rowArr.length) "" := by
  induction n with
  | zero => intro rowArr; simp
  | succ m ih =>
    intro rowArr
    cases rowArr with
    | nil =>
      have hconst : ((List.range (m + 1)).map (fun c => jsTrim (([] : List String).getD c ""))) =
          List.replicate (m + 1) "" := by
        have : ∀ c : Nat, jsTrim (([] : List String).getD c "") = "" := by
          intro c
          rfl
        calc ((List.range (m + 1)).map (fun c => jsTrim (([] : List String).getD c "")))
            = (List.range (m + 1)).map (fun _ => "") := by
              apply List.map_congr_left
              intro c _
              rfl
          _ = List.replicate (m + 1) "" := by
              rw [List.map_const']
              simp
      rw [hconst]
      simp
    | cons x xs =>
      rw [List.range_succ_eq_map, List.map_cons, List.map_map]
      have hstep : ((List.range m).map ((fun c => jsTrim ((x :: xs).getD c "")) ∘ Nat.succ)) =
          ((List.range m).map (fun c => jsTrim (xs.getD c ""))) := by
        apply List.map_congr_left
        intro c _
        rfl
      rw [hstep, ih xs]
      simp only [List.getD_cons_zero, List.take_succ_cons, List.map_cons, List.length_cons]
      have : m + 1 - (xs.length + 1) = m - xs.length := by omega
      rw [this]
      rfl

end CsvParse

open CsvParse in
/-- C3 (amended): every produced Row has exactly the headers as its key set;
a kept data row's values are its first cells trimmed, truncated to the header
count and padded with trailing empty strings; and an over-long row gets a
warning naming its line number as long as the 200-message cap is not yet
reached (at the cap the truncation still happens but its warning is dropped).
The concrete conjunct shows the truncation warning for line 2. -/
theorem c3_row_key_set :
    (∀ (papa : Papa) (text : String),
      ∀ r ∈ (parseCsvFile papa text).rows,
        r.map Prod.fst = (parseCsvFile papa text).headers) ∧
    (∀ (n : Nat) (rowArr : List String),
      ((List.range n).map (fun c => jsTrim (rowArr.getD c ""))) =
        ((rowArr.take n).map jsTrim) ++ List.replicate (n - rowArr.length) "") ∧
    (parseCsvFile (fun _ => ([["h1", "h2"], ["a", "b", "c"], ["x"]], [])) "x" =
      { headers := ["h1", "h2"],
        rows := [[("h1", "a"), ("h2", "b")], [("h1", "x"), ("h2", "")]],
        previewRows := [[("h1", "a"), ("h2", "b")], [("h1", "x"), ("h2", "")]],
        totalRows := 2,
        parseErrors := ["Line 2: had 3 values; truncated to 2."] }) := by
  refine ⟨?_, padTruncate_values, by decide⟩
  intro papa text
  unfold parseCsvFile
  dsimp only
  split
  · intro r hr; simp at hr
  · split
    · intro r hr; simp at hr
    · split
      · intro r hr; simp at hr
      · split
        · intro r hr; simp at hr
        · intro r hr
          exact processBody_rows_keys _ _ _ _ _ r hr

/-- C3 counterexample: with 201 over-long data rows the 201st is still
truncated (all 201 rows are produced with the single header key), but the
error list has been capped at 200 messages and the warning naming line 202 is
absent, contradicting the claim that every truncated row gets a warning naming
its line number. -/
theorem c3_counterexample :
    (CsvParse.parseCsvFile (fun _ => ([["h"]] ++ List.replicate 201 ["x", "y"], []))
        "h").rows.length = 201 ∧
    (CsvParse.parseCsvFile (fun _ => ([["h"]] ++ List.replicate 201 ["x", "y"], []))
        "h").parseErrors.length = 200 ∧
    "Line 202: had 2 values; truncated to 1." ∉
      (CsvParse.parseCsvFile (fun _ => ([["h"]] ++ List.replicate 201 ["x", "y"], []))
        "h").parseErrors := by
  refine ⟨by decide!, by decide!, by decide!⟩

/-- C3 witness: the key-set conjunct instantiated on a short-row input: the
missing trailing cell is filled with the empty string, and the row's key set
is exactly the headers. -/
theorem c3_row_key_set_witness :
    ∀ r ∈ (CsvParse.parseCsvFile (fun _ => ([["h1", "h2"], ["a"]], [])) "x").rows,
      r.map Prod.fst = (CsvParse.parseCsvFile (fun _ => ([["h1", "h2"], ["a"]], [])) "x").headers := by
  exact c3_row_key_set.1 (fun _ => ([["h1", "h2"], ["a"]], [])) "x"

open CsvParse in
/-- C5 (amended): parsing is total and best-effort (totalRows always equals
the produced row count) and the parseErrors list never exceeds 201 entries; it
never exceeds the 200-message cap unless the tokenizer reports at least 200
errors and parsing takes an early return (empty data or no header row), where
exactly one final message is appended past the cap; with at most 199 tokenizer
errors the 200 cap always holds. -/
theorem c5_error_cap :
    (∀ (papa : Papa) (text : String),
      (parseCsvFile papa text).parseErrors.length ≤ 201) ∧
    (∀ (papa : Papa) (text : String),
      (papa (cleanText text)).2.length ≤ 199 →
      (parseCsvFile papa text).parseErrors.length ≤ 200) ∧
    (∀ (papa : Papa) (text : String),
      (parseCsvFile papa text).totalRows = (parseCsvFile papa text).rows.length) := by
  refine ⟨?_, ?_, ?_⟩
  · intro papa text
    unfold parseCsvFile
    dsimp only
    split
    · simp
    · have hbase : ((((papa (cleanText text)).2.take MAX_ERRORS).map
          (fun e => "Parser: " ++ e.message ++ " (row " ++
            (match e.row with | some n => toString n | none => "?") ++ ")")).length ≤ 200) := by
        simp only [List.length_map, List.length_take, MAX_ERRORS]
        omega
      split
      · simp only [List.length_append, List.length_cons, List.length_nil]
        omega
      · split
        · simp only [List.length_append, List.length_cons, List.length_nil]
          omega
        · split
          · simp only [List.length_append, List.length_cons, List.length_nil]
            omega
          · split
            · exact le_trans (pushErr_length_le _ _ (processBody_errs_le _ _ _ _ _ hbase)) (by omega)
            · exact le_trans (processBody_errs_le _ _ _ _ _ hbase) (by omega)
  · intro papa text hpapa
    unfold parseCsvFile
    dsimp only
    split
    · simp
    · have hbase : ((((papa (cleanText text)).2.take MAX_ERRORS).map
          (fun e => "Parser: " ++ e.message ++ " (row " ++
            (match e.row with | some n => toString n | none => "?") ++ ")")).length ≤ 199) := by
        simp only [List.length_map, List.length_take, MAX_ERRORS]
        omega
      split
      · simp only [List.length_append, List.length_cons, List.length_nil]
        omega
      · split
        · simp only [List.length_append, List.length_cons, List.length_nil]
          omega
        · split
          · simp only [List.length_append, List.length_cons, List.length_nil]
            omega
          · split
            · exact pushErr_length_le _ _ (processBody_errs_le _ _ _ _ _ (le_trans hbase (by omega)))
            · exact processBody_errs_le _ _ _ _ _ (le_trans hbase (by omega))
  · intro papa text
    unfold parseCsvFile
    dsimp only
    split
    · rfl
    · split
      · rfl
      · split
        · rfl
        · split
          · rfl
          · rfl

/-- C5 counterexample: a tokenizer outcome with 200 error records and no data
rows drives parseCsvFile to 201 accumulated messages, exceeding the claimed
200-message bound (the early "No rows detected." return appends one message on
top of the 200 tokenizer messages). -/
theorem c5_counterexample :
    (CsvParse.parseCsvFile (fun _ => ([], List.replicate 200 ⟨"boom", none⟩)) "a").parseErrors.length
      = 201 := by
  decide!

/-- C5 witness: the 200-cap conjunct instantiated at a tokenizer reporting no
errors over an over-long-row input. -/
theorem c5_error_cap_witness :
    (CsvParse.parseCsvFile (fun _ => ([["h"], ["x", "y"]], [])) "h").parseErrors.length ≤ 200 := by
  exact c5_error_cap.2.1 (fun _ => ([["h"], ["x", "y"]], [])) "h" (by decide)
